import Mathlib

/-!
Shallow embedding of the AI-browser tool dispatcher (sdk-mcp-server of the
hello-halo repository) and of the spec-modelled collaborators it drives
(ViewManager, BrowserContext).  Tool handlers are `async` TypeScript
functions whose collaborator calls can resolve, reject with a thrown value,
or never settle; that outcome space is embedded as
`AsyncR α = Option (Except JSError α)` with `none` standing for a call that
never settles.  A handler's escaped exception is a `some (.error e)` result;
a normalized tool result is `some (.ok r)`.
-/

namespace Halo

/-- A thrown JavaScript value: an `Error` carrying a message, or any other
thrown value (which is not an `Error` instance). -/
inductive JSError where
  | error (message : String)
  | thrownNonError
deriving DecidableEq

/-- `(e as Error).message`: the message of an `Error`; reading `.message` from
a non-`Error` thrown value yields `undefined`, which interpolates as the
string "undefined". -/
def JSError.msg : JSError → String
  | .error m => m
  | .thrownNonError => "undefined"

/-- Outcome of awaiting an asynchronous operation: `none` when the underlying
promise never settles, `some (.error e)` when it rejects with `e`, and
`some (.ok a)` when it resolves with `a`. -/
def AsyncR (α : Type) : Type := Option (Except JSError α)

/-- The operation resolved with `a`. -/
def AsyncR.ok {α : Type} (a : α) : AsyncR α := some (.ok a)

/-- The operation rejected with `e`. -/
def AsyncR.err {α : Type} (e : JSError) : AsyncR α := some (.error e)

/-- The operation never settles. -/
def AsyncR.hang {α : Type} : AsyncR α := none

deriving instance DecidableEq for Except

instance {α : Type} [DecidableEq α] : DecidableEq (AsyncR α) := by
  unfold AsyncR; infer_instance

/-- One block of a tool result's `content` array. -/
inductive ContentBlock where
  | text (text : String)
  | image (data : String) (mimeType : String)
deriving DecidableEq

/-- The normalized result envelope every tool handler returns:
`{content: [...], isError?}` (an absent `isError` is embedded as `false`). -/
structure ToolResult where
  content : List ContentBlock
  isError : Bool
deriving DecidableEq

/-- `textResult(text, isError)` of the source: a single text block. -/
def textResult (text : String) (isError : Bool) : ToolResult :=
  { content := [ContentBlock.text text], isError := isError }

/-- `imageResult(text, data, mimeType)` of the source: a text block followed
by an image block, never an error. -/
def imageResult (text : String) (data : String) (mimeType : String) : ToolResult :=
  { content := [ContentBlock.text text, ContentBlock.image data mimeType],
    isError := false }

/-- Default per-tool timeout in milliseconds (`TOOL_TIMEOUT`). -/
def TOOL_TIMEOUT : Nat := 60000

/-- Default navigation wait timeout in milliseconds (`NAV_TIMEOUT`). -/
def NAV_TIMEOUT : Nat := 30000

/-- `withTimeout(promise, ms, label)`: races the operation against a timer.
A settled outcome wins the race unchanged; an operation that never settles
loses to the timer, which rejects with the descriptive timeout `Error`.  The
race always settles, so the result is an `Except`, not an `AsyncR`. -/
def withTimeout {α : Type} (x : AsyncR α) (ms : Nat) (label : String) :
    Except JSError α :=
  match x with
  | none => .error (.error (label ++ " timed out after " ++ toString ms ++ "ms"))
  | some r => r

/-- JavaScript `String.prototype.includes` on character lists. -/
def listInfix (pat s : List Char) : Bool :=
  match s with
  | [] => pat.isEmpty
  | _ :: tail => pat.isPrefixOf s || listInfix pat tail

/-- JavaScript `s.includes(pat)`. -/
def strIncludes (s pat : String) : Bool :=
  listInfix pat.data s.data

/-- JavaScript truthiness of an optional string: an absent value and the
empty string are falsy. -/
def jsTruthyStr : Option String → Bool
  | some s => !(s == "")
  | none => false

/-- JavaScript truthiness of an optional boolean: only `some true` is truthy. -/
def jsTruthyBool : Option Bool → Bool
  | some b => b
  | none => false

/-- JavaScript truthiness of an optional number: absent, `0` is falsy. -/
def jsTruthyInt : Option Int → Bool
  | some n => !(n == 0)
  | none => false

/-- JavaScript `s.substring(0, limit)` plus an ellipsis when the string was
longer (the `substring`/length idiom of the list renderers). -/
def truncateWithEllipsis (limit : Nat) (s : String) : String :=
  if s.length > limit then (String.mk (s.data.take limit)) ++ "..." else s

-- ============================================
-- Views: ViewManager state and the page tools
-- ============================================

/-- One browser view's `{id, title, url}` state as reported by
`ViewManager.getAllStates()`. -/
structure ViewState where
  id : String
  title : String
  url : String
deriving DecidableEq

/-- `state.title || 'Untitled'` (an empty title is falsy). -/
def titleOrUntitled (s : ViewState) : String :=
  if s.title == "" then "Untitled" else s.title

/-- `state.url || 'about:blank'` (an empty url is falsy). -/
def urlOrBlank (s : ViewState) : String :=
  if s.url == "" then "about:blank" else s.url

/-- The numbered line `[index] title - url` of the `browser_list_pages`
listing. -/
def listPageLine (index : Nat) (s : ViewState) : String :=
  let i := toString index
  let t := titleOrUntitled s
  let u := urlOrBlank s
  "[" ++ i ++ "] " ++ t ++ " - " ++ u

/-- The `browser_list_pages` handler: a pure listing of the view states, no
awaited call, no throwing call. -/
def browser_list_pages (views : List ViewState) : ToolResult :=
  if views.isEmpty then
    textResult "No browser pages are currently open." false
  else
    textResult
      (String.intercalate "\n"
        ("Open browser pages:" ::
          (views.enum.map fun p => listPageLine p.1 p.2)))
      false

/-- Modelled from the spec: `BrowserContext.setActiveViewId(id)` (its source
is not in the repository snapshot) fails `NotFound` when `id` does not
correspond to a live view, and otherwise repoints the active-view pointer. -/
def setActiveViewId (views : List ViewState) (active : Option String)
    (id : String) : Except JSError (Option String) :=
  if views.any fun v => v.id == id then .ok (some id)
  else .error (.error ("View not found: " ++ id))

/-- JavaScript array indexing `l[i]` with a general numeric index (the page
index schema is plain `z.number()`): the read is defined exactly when `i` is
a non-negative integer below the length; a fractional or negative index
reads `undefined`. -/
def jsIndex {α : Type} (l : List α) (i : ℚ) : Option α :=
  if i.den = 1 ∧ 0 ≤ i.num then l.get? i.num.toNat else none

/-- The `browser_select_page` handler.  `pageIdx` is a plain JS number
(embedded as an exact rational): the bounds check is a numeric comparison,
so a fractional in-range index passes it, `states[pageIdx]` is `undefined`,
and reading `.id` throws a TypeError that — the `setActiveViewId` call and
the property read standing outside any try block — escapes as `.error`.
Returns the new active pointer with the result.  (The `bringToFront`
argument is accepted but unused by the handler, so it is not modelled.) -/
def browser_select_page (views : List ViewState) (active : Option String)
    (pageIdx : ℚ) : Except JSError (Option String × ToolResult) :=
  if pageIdx < 0 || (views.length : ℚ) ≤ pageIdx then
    let i := toString pageIdx
    let top := toString ((views.length : Int) - 1)
    .ok (active,
      textResult ("Invalid page index: " ++ i ++ ". Valid range: 0-" ++ top) true)
  else
    match jsIndex views pageIdx with
    | none =>
      .error (JSError.error "TypeError: Cannot read properties of undefined (reading 'id')")
    | some state =>
      match setActiveViewId views active state.id with
      | .error e => .error e
      | .ok active' =>
        let i := toString pageIdx
        let t := titleOrUntitled state
        .ok (active',
          textResult ("Selected page [" ++ i ++ "]: " ++ t ++ " - " ++ state.url) false)

/-- Modelled from the spec: `ViewManager.destroy(id)` (its source is not in
the repository snapshot) fails `InvalidOperation` when `id` is the only
remaining view, fails `NotFound` for an unknown id, and otherwise tears the
view down and removes it from the list. -/
def destroyView (views : List ViewState) (id : String) :
    Except JSError (List ViewState) :=
  if !(views.any fun v => v.id == id) then
    .error (.error ("View not found: " ++ id))
  else if views.length == 1 then
    .error (.error "InvalidOperation: cannot destroy the last remaining view")
  else
    .ok (views.eraseP fun v => v.id == id)

/-- The `browser_close_page` handler.  Index check on a plain JS number
(exact rational), then the last-page guard, then `states[pageIdx].id` and
`destroy` — both outside any try block, so with more than one view a
fractional in-range index makes `states[pageIdx]` `undefined` and the `.id`
read's TypeError escapes as `.error`.  Returns the new view list with the
result. -/
def browser_close_page (views : List ViewState) (pageIdx : ℚ) :
    Except JSError (List ViewState × ToolResult) :=
  if pageIdx < 0 || (views.length : ℚ) ≤ pageIdx then
    let i := toString pageIdx
    .ok (views, textResult ("Invalid page index: " ++ i) true)
  else if views.length == 1 then
    .ok (views, textResult "The last open page cannot be closed." true)
  else
    match jsIndex views pageIdx with
    | none =>
      .error (JSError.error "TypeError: Cannot read properties of undefined (reading 'id')")
    | some state =>
      match destroyView views state.id with
      | .error e => .error e
      | .ok views' =>
        let i := toString pageIdx
        let t := titleOrUntitled state
        .ok (views', textResult ("Closed page [" ++ i ++ "]: " ++ t) false)

-- ============================================
-- Navigation tools with an awaited wait: new_page, navigate, wait_for
-- ============================================

/-- The navigation-wait timeout computation the navigation tools share:
`(args.timeout && args.timeout > 0) ? args.timeout : NAV_TIMEOUT` — a
positive explicit timeout overrides; anything else (absent, zero — falsy —
or negative) falls back to the 30s default. -/
def effectiveNavTimeout : Option Int → Int
  | some t => if 0 < t then t else (NAV_TIMEOUT : Int)
  | none => (NAV_TIMEOUT : Int)

/-- The collaborator behaviors of `browser_new_page`. -/
structure NewPageEnv where
  create : String → String → AsyncR Unit
  waitForNavigation : Int → AsyncR Unit
  getState : String → Option ViewState

/-- The `browser_new_page` handler: everything runs inside the try block, so
every rejection is caught into the failure result; the awaited `create` is
not timeout-wrapped, while the navigation wait receives the effective
timeout as its own argument (recorded in the first component).  The
`setActiveViewId` on the freshly created id is modelled from the spec as
succeeding: `create` just registered that view, so the pointer update cannot
fail `NotFound`. -/
def browser_new_page (env : NewPageEnv) (now : Nat) (url : String)
    (timeoutArg : Option Int) : List Int × AsyncR ToolResult :=
  let timeout := effectiveNavTimeout timeoutArg
  let viewId := "ai-browser-" ++ toString now
  match env.create viewId url with
  | none => ([], AsyncR.hang)
  | some (.error e) =>
    ([], AsyncR.ok (textResult ("Failed to create new page: " ++ e.msg) true))
  | some (.ok _) =>
    match env.waitForNavigation timeout with
    | none => ([timeout], AsyncR.hang)
    | some (.error e) =>
      ([timeout], AsyncR.ok (textResult ("Failed to create new page: " ++ e.msg) true))
    | some (.ok _) =>
      let finalState := env.getState viewId
      let title := match finalState with
        | some s => if s.title == "" then "Untitled" else s.title
        | none => "Untitled"
      let u := match finalState with
        | some s => if s.url == "" then url else s.url
        | none => url
      ([timeout], AsyncR.ok (textResult ("Created new page: " ++ title ++ " - " ++ u) false))

/-- The `type` argument of `browser_navigate`. -/
inductive NavType where
  | url
  | back
  | forward
  | reload
deriving DecidableEq

/-- The arguments of a `browser_navigate` call.  (`ignoreCache` is accepted
by the schema but never forwarded by the handler.) -/
structure NavigateArgs where
  type : Option NavType
  url : Option String
  ignoreCache : Option Bool
  timeout : Option Int
deriving DecidableEq

/-- The collaborator behaviors of `browser_navigate`.  The history moves
(`goBack`/`goForward`/`reload`) are issued without awaiting, so their
outcome never reaches the handler and they carry no behavior here; only the
awaited `navigate` and the navigation wait do. -/
structure NavEnv where
  navigate : String → String → AsyncR Unit
  waitForNavigation : Int → AsyncR Unit
  getState : String → Option ViewState

/-- The shared tail of the back/forward/reload branches: await the
navigation wait (timeout recorded), catch a rejection into the navigate
failure result, and otherwise return the branch's success message. -/
def navAwaitThen (env : NavEnv) (timeout : Int) (okMsg : String) :
    List Int × AsyncR ToolResult :=
  match env.waitForNavigation timeout with
  | none => ([timeout], AsyncR.hang)
  | some (.error e) =>
    ([timeout],
      AsyncR.ok (textResult ("Unable to navigate in the selected page: " ++ e.msg ++ ".") true))
  | some (.ok _) => ([timeout], AsyncR.ok (textResult okMsg false))

/-- The url branch of `browser_navigate`: await the navigation command, then
the navigation wait, then report the final url (the view state's url when
truthy, the requested url otherwise). -/
def navigateUrlBranch (env : NavEnv) (viewId u : String) (timeout : Int) :
    List Int × AsyncR ToolResult :=
  match env.navigate viewId u with
  | none => ([], AsyncR.hang)
  | some (.error e) =>
    ([],
      AsyncR.ok (textResult ("Unable to navigate in the selected page: " ++ e.msg ++ ".") true))
  | some (.ok _) =>
    match env.waitForNavigation timeout with
    | none => ([timeout], AsyncR.hang)
    | some (.error e) =>
      ([timeout],
        AsyncR.ok (textResult ("Unable to navigate in the selected page: " ++ e.msg ++ ".") true))
    | some (.ok _) =>
      let dest := match env.getState viewId with
        | some s => if s.url == "" then u else s.url
        | none => u
      ([timeout], AsyncR.ok (textResult ("Successfully navigated to " ++ dest ++ ".") false))

/-- The `browser_navigate` handler: `navType` defaults to `url` when a
truthy url is given, the arguments are validated, then the switch issues
the move and awaits the navigation wait inside the try block.  The first
component records the wait timeouts requested. -/
def browser_navigate (env : NavEnv) (active : Option String)
    (args : NavigateArgs) : List Int × AsyncR ToolResult :=
  let navType := match args.type with
    | some t => some t
    | none => if jsTruthyStr args.url then some NavType.url else none
  let timeout := effectiveNavTimeout args.timeout
  if navType.isNone && !(jsTruthyStr args.url) then
    ([], AsyncR.ok (textResult "Either URL or a type is required." true))
  else
    match active with
    | none =>
      ([], AsyncR.ok (textResult "No active browser page. Use browser_new_page first." true))
    | some viewId =>
      match navType with
      | some NavType.back => navAwaitThen env timeout "Successfully navigated back."
      | some NavType.forward => navAwaitThen env timeout "Successfully navigated forward."
      | some NavType.reload => navAwaitThen env timeout "Successfully reloaded the page."
      | _ =>
        if jsTruthyStr args.url then
          navigateUrlBranch env viewId (args.url.getD "") timeout
        else
          ([], AsyncR.ok (textResult "A URL is required for navigation of type=url." true))

/-- The `browser_wait_for` handler: no active-view check; the text wait
receives the effective timeout (recorded), and any rejection is reported as
the timeout message (the catch discards the thrown value). -/
def browser_wait_for (waitForText : String → Int → AsyncR Unit)
    (text : String) (timeoutArg : Option Int) : List Int × AsyncR ToolResult :=
  let timeout := effectiveNavTimeout timeoutArg
  match waitForText text timeout with
  | none => ([timeout], AsyncR.hang)
  | some (.error _) =>
    ([timeout], AsyncR.ok (textResult ("Timeout waiting for text: \"" ++ text ++ "\"") true))
  | some (.ok _) =>
    ([timeout], AsyncR.ok (textResult ("Element with text \"" ++ text ++ "\" found.") false))

-- ============================================
-- Input tools: fillFormElement, fill, fill_form, click, hover
-- ============================================

/-- An accessibility-tree element as `getElementByUid` resolves it: a role
and the child elements (a child list the source reads with `?.` is embedded
as a possibly empty list). -/
inductive ElementNode where
  | node (role : String) (children : List ElementNode)

/-- The element's role. -/
def ElementNode.role : ElementNode → String
  | .node r _ => r

/-- The element's children. -/
def ElementNode.children : ElementNode → List ElementNode
  | .node _ cs => cs

/-- The two `BrowserContext` element actions `fillFormElement` can invoke. -/
inductive FillCall where
  | selectOption
  | fillElement
deriving DecidableEq

/-- The collaborator behaviors `fillFormElement` depends on.
`elementByUid` is `BrowserContext.getElementByUid` (spec-modelled: returns
the current generation's element, or nothing on a miss); `selectOption` and
`fillElement` are the awaited element actions, given by their settle
behavior per `(uid, value)`. -/
structure FillEnv where
  elementByUid : String → Option ElementNode
  selectOption : String → String → AsyncR Unit
  fillElement : String → String → AsyncR Unit

/-- The fallback test of `fillFormElement`'s catch: fall back exactly when
the thrown value is an `Error` whose message includes the
`Could not find option` marker (any other failure is rethrown). -/
def isOptionNotFound : JSError → Bool
  | .error m => strIncludes m "Could not find option"
  | .thrownNonError => false

/-- `fillFormElement(uid, value)`: combobox elements with at least one
option child go through `selectOption` first, falling back to `fillElement`
only on the option-not-found failure; everything else (including an
unresolved uid) goes directly to `fillElement`.  The first component records
the element actions invoked, in order. -/
def fillFormElement (env : FillEnv) (uid value : String) :
    List FillCall × AsyncR Unit :=
  match env.elementByUid uid with
  | some el =>
    if el.role == "combobox" then
      if el.children.any fun c => c.role == "option" then
        match env.selectOption uid value with
        | some (.ok _) => ([FillCall.selectOption], AsyncR.ok ())
        | some (.error e) =>
          if isOptionNotFound e then
            ([FillCall.selectOption, FillCall.fillElement], env.fillElement uid value)
          else
            ([FillCall.selectOption], AsyncR.err e)
        | none => ([FillCall.selectOption], AsyncR.hang)
      else
        ([FillCall.fillElement], env.fillElement uid value)
    else
      ([FillCall.fillElement], env.fillElement uid value)
  | none => ([FillCall.fillElement], env.fillElement uid value)

/-- The `browser_fill` handler: the fill is wrapped in the 60s timeout race,
every failure is caught and normalized. -/
def browser_fill (env : FillEnv) (active : Option String)
    (uid value : String) : ToolResult :=
  if active.isNone then
    textResult "No active browser page." true
  else
    match withTimeout (fillFormElement env uid value).2 TOOL_TIMEOUT "browser_fill" with
    | .ok _ => textResult "Successfully filled out the element" false
    | .error e =>
      let m := e.msg
      textResult ("Failed to fill element " ++ uid ++ ": " ++ m) true

/-- One `{uid, value}` entry of `browser_fill_form`'s elements array. -/
structure FormElem where
  uid : String
  value : String
deriving DecidableEq

/-- The `browser_fill_form` loop: every element is attempted in order, each
attempt wrapped in the 60s timeout race; a failure is recorded as the line
`uid: message` and the loop continues.  Returns the attempted uids in order
and the collected error lines in order. -/
def fillFormRun (env : FillEnv) : List FormElem → List String × List String
  | [] => ([], [])
  | e :: rest =>
    let r := withTimeout (fillFormElement env e.uid e.value).2 TOOL_TIMEOUT
      "browser_fill_form"
    let tail := fillFormRun env rest
    match r with
    | .ok _ => (e.uid :: tail.1, tail.2)
    | .error err =>
      let m := err.msg
      (e.uid :: tail.1, (e.uid ++ ": " ++ m) :: tail.2)

/-- Whether the attempt `browser_fill_form` makes for one element (the
timeout-raced `fillFormElement`) fails. -/
def fillAttemptFails (env : FillEnv) (e : FormElem) : Bool :=
  match withTimeout (fillFormElement env e.uid e.value).2 TOOL_TIMEOUT
    "browser_fill_form" with
  | .ok _ => false
  | .error _ => true

/-- The `uid: message` error line `browser_fill_form` records for a failing
element. -/
def fillFailLine (env : FillEnv) (e : FormElem) : String :=
  match withTimeout (fillFormElement env e.uid e.value).2 TOOL_TIMEOUT
    "browser_fill_form" with
  | .ok _ => e.uid ++ ": "
  | .error err => e.uid ++ ": " ++ err.msg

/-- The `browser_fill_form` handler: runs the loop, then reports success, or
the partial-fill message carrying `isError` exactly when every element
failed.  The first component records the attempted uids in order. -/
def browser_fill_form (env : FillEnv) (active : Option String)
    (elements : List FormElem) : List String × ToolResult :=
  if active.isNone then
    ([], textResult "No active browser page." true)
  else
    let run := fillFormRun env elements
    let errors := run.2
    if 0 < errors.length then
      (run.1,
        textResult
          ("Partially filled out the form.\n\nErrors:\n" ++
            String.intercalate "\n" errors)
          (errors.length == elements.length))
    else
      (run.1, textResult "Successfully filled out the form" false)

/-- The `browser_click` handler: the click is wrapped in the 60s timeout
race, every failure caught and normalized. -/
def browser_click (clickOutcome : AsyncR Unit) (active : Option String)
    (uid : String) (dblClick : Option Bool) : ToolResult :=
  if active.isNone then
    textResult "No active browser page. Use browser_new_page first." true
  else
    match withTimeout clickOutcome TOOL_TIMEOUT "browser_click" with
    | .ok _ =>
      textResult
        (if jsTruthyBool dblClick then "Successfully double clicked on the element"
         else "Successfully clicked on the element")
        false
    | .error e =>
      let m := e.msg
      textResult ("Failed to click element " ++ uid ++ ": " ++ m) true

/-- The `browser_hover` handler: the hover is wrapped in the 60s timeout
race, every failure caught and normalized. -/
def browser_hover (hoverOutcome : AsyncR Unit) (active : Option String)
    (uid : String) : ToolResult :=
  if active.isNone then
    textResult "No active browser page." true
  else
    match withTimeout hoverOutcome TOOL_TIMEOUT "browser_hover" with
    | .ok _ => textResult "Successfully hovered over the element" false
    | .error e =>
      let m := e.msg
      textResult ("Failed to hover element " ++ uid ++ ": " ++ m) true

/-- The `browser_drag` handler: the drag is wrapped in the 60s timeout race,
every failure caught and normalized. -/
def browser_drag (dragOutcome : AsyncR Unit) (active : Option String)
    (from_uid to_uid : String) : ToolResult :=
  if active.isNone then
    textResult "No active browser page." true
  else
    match withTimeout dragOutcome TOOL_TIMEOUT "browser_drag" with
    | .ok _ => textResult "Successfully dragged an element" false
    | .error e => textResult ("Failed to drag: " ++ e.msg) true

/-- The `browser_press_key` handler: the key press is wrapped in the 60s
timeout race, every failure caught and normalized. -/
def browser_press_key (pressOutcome : AsyncR Unit) (active : Option String)
    (key : String) : ToolResult :=
  if active.isNone then
    textResult "No active browser page." true
  else
    match withTimeout pressOutcome TOOL_TIMEOUT "browser_press_key" with
    | .ok _ => textResult ("Successfully pressed key: " ++ key) false
    | .error e => textResult ("Failed to press key: " ++ e.msg) true

/-- The `browser_upload_file` handler: the uid lookup throws inside the try
block when the element is unresolved (caught into the failure result), and
the `DOM.setFileInputFiles` protocol send — abstracted here by its outcome —
is wrapped in the 60s timeout race. -/
def browser_upload_file (elementByUid : String → Option ElementNode)
    (uploadOutcome : AsyncR Unit) (active : Option String)
    (uid filePath : String) : ToolResult :=
  if active.isNone then
    textResult "No active browser page." true
  else
    match elementByUid uid with
    | none => textResult ("Failed to upload file: Element not found: " ++ uid) true
    | some _ =>
      match withTimeout uploadOutcome TOOL_TIMEOUT "browser_upload_file" with
      | .ok _ => textResult ("File uploaded from " ++ filePath ++ ".") false
      | .error e => textResult ("Failed to upload file: " ++ e.msg) true

-- ============================================
-- Snapshot and evaluate
-- ============================================

/-- What `createSnapshot` resolves with: the page title and url, the size of
the uid map, and the formatter (compact or verbose). -/
structure SnapshotV where
  title : String
  url : String
  nodeCount : Nat
  render : Bool → String

/-- The `browser_snapshot` handler: the capture is wrapped in the 60s
timeout race; a caller-given file path switches to the saved-to summary
(the filesystem write is the external sink and is modelled as succeeding —
a write failure would be caught into the same normalized error result). -/
def browser_snapshot (createSnapshot : Bool → AsyncR SnapshotV)
    (active : Option String) (verbose : Option Bool)
    (filePath : Option String) : ToolResult :=
  if active.isNone then
    textResult "No active browser page. Use browser_new_page first." true
  else
    match withTimeout (createSnapshot (jsTruthyBool verbose)) TOOL_TIMEOUT
      "browser_snapshot" with
    | .error e => textResult ("Failed to take snapshot: " ++ e.msg) true
    | .ok snapshot =>
      let formatted := snapshot.render (jsTruthyBool verbose)
      match filePath with
      | some p =>
        textResult ("Snapshot saved to: " ++ p ++ "\n\nPage: " ++ snapshot.title ++
          "\nURL: " ++ snapshot.url ++ "\nElements: " ++ toString snapshot.nodeCount) false
      | none => textResult formatted false

/-- The uid-resolution loop of `browser_evaluate`: the first unresolved uid
throws the lookup error (caught by the handler's try block). -/
def evalResolveArgs (elementByUid : String → Option ElementNode) :
    List String → Except JSError Unit
  | [] => .ok ()
  | u :: rest =>
    match elementByUid u with
    | none => .error (JSError.error ("Element not found: " ++ u))
    | some _ => evalResolveArgs elementByUid rest

/-- The `browser_evaluate` handler: argument uids are resolved first (a miss
throws, caught into the script-error result), then the evaluation — whose
resolved value, already rendered to its JSON/string form, is the outcome —
is wrapped in the 60s timeout race. -/
def browser_evaluate (elementByUid : String → Option ElementNode)
    (evalOutcome : AsyncR String) (active : Option String)
    (fn : String) (argUids : Option (List String)) : ToolResult :=
  if active.isNone then
    textResult "No active browser page." true
  else
    match evalResolveArgs elementByUid (argUids.getD []) with
    | .error e => textResult ("Script error: " ++ e.msg) true
    | .ok _ =>
      match withTimeout evalOutcome TOOL_TIMEOUT "browser_evaluate" with
      | .error e => textResult ("Script error: " ++ e.msg) true
      | .ok resultStr =>
        textResult ("Script ran on page and returned:\n```json\n" ++ resultStr ++ "\n```")
          false

-- ============================================
-- Screenshot
-- ============================================

/-- The arguments of a `browser_screenshot` call (fields absent in the call
are `none`). -/
structure ScreenshotArgs where
  format : Option String
  quality : Option Int
  uid : Option String
  fullPage : Option Bool
  filePath : Option String
deriving DecidableEq

/-- The argument record handed to `BrowserContext.captureScreenshot`. -/
structure ScreenshotParams where
  format : String
  quality : Option Int
  uid : Option String
  fullPage : Bool
deriving DecidableEq

/-- What `captureScreenshot` resolves with. -/
structure ScreenshotData where
  data : String
  mimeType : String
deriving DecidableEq

/-- The `browser_screenshot` handler.  The active-view check and the
uid/fullPage exclusivity check run before anything is captured; the
exclusivity check follows JavaScript truthiness (`args.uid && args.fullPage`).
The first component records each `captureScreenshot` invocation with its
argument record; the capture itself is wrapped in the 60s timeout race and
every failure caught.  The file-saving branch returns the text result after
writing; the inline branch returns text plus image. -/
def browser_screenshot (capture : ScreenshotParams → AsyncR ScreenshotData)
    (active : Option String) (args : ScreenshotArgs) :
    List ScreenshotParams × ToolResult :=
  if active.isNone then
    ([], textResult "No active browser page." true)
  else if jsTruthyStr args.uid && jsTruthyBool args.fullPage then
    ([], textResult "Providing both \"uid\" and \"fullPage\" is not allowed." true)
  else
    let format := args.format.getD "png"
    let params : ScreenshotParams :=
      { format := format,
        quality := if format == "png" then none else args.quality,
        uid := args.uid,
        fullPage := jsTruthyBool args.fullPage }
    match withTimeout (capture params) TOOL_TIMEOUT "browser_screenshot" with
    | .error e =>
      let m := e.msg
      ([params], textResult ("Failed to take screenshot: " ++ m) true)
    | .ok result =>
      let message :=
        if jsTruthyStr args.uid then
          let u := (args.uid).getD ""
          "Took a screenshot of node with uid \"" ++ u ++ "\"."
        else if jsTruthyBool args.fullPage then
          "Took a screenshot of the full current page."
        else
          "Took a screenshot of the current page's viewport."
      match args.filePath with
      | some path =>
        ([params], textResult (message ++ "\nSaved screenshot to " ++ path ++ ".") false)
      | none =>
        ([params], imageResult message result.data result.mimeType)

-- ============================================
-- Resize and dialog handling (no timeout wrapping in the source)
-- ============================================

/-- The `browser_resize` handler: the `setViewportSize` call is awaited
inside the try block but is not wrapped in any timeout race, so an
operation that never settles leaves the handler itself never settling. -/
def browser_resize (setViewportSize : AsyncR Unit) (active : Option String)
    (width height : Int) : AsyncR ToolResult :=
  if active.isNone then
    AsyncR.ok (textResult "No active browser page." true)
  else
    match setViewportSize with
    | none => AsyncR.hang
    | some (.error e) =>
      let m := e.msg
      AsyncR.ok (textResult ("Resize failed: " ++ m) true)
    | some (.ok _) =>
      let w := toString width
      let h := toString height
      AsyncR.ok (textResult ("Viewport resized to: " ++ w ++ "x" ++ h) false)

/-- A pending dialog's `{type, message, defaultValue}` record. -/
structure PendingDialog where
  kind : String
  message : String
  defaultValue : Option String
deriving DecidableEq

/-- The action argument of `browser_handle_dialog`. -/
inductive DialogAction where
  | accept
  | dismiss
deriving DecidableEq

/-- The `browser_handle_dialog` handler: no pending dialog is an error
result; with one pending, `handleDialog` is awaited inside the try block
but without any timeout race, so a `handleDialog` that never settles leaves
the handler never settling. -/
def browser_handle_dialog (pendingDialog : Option PendingDialog)
    (handleOutcome : AsyncR Unit) (action : DialogAction)
    (promptText : Option String) : AsyncR ToolResult :=
  match pendingDialog with
  | none => AsyncR.ok (textResult "No open dialog found" true)
  | some _ =>
    match handleOutcome with
    | none => AsyncR.hang
    | some (.error e) =>
      let m := e.msg
      AsyncR.ok (textResult ("Failed to handle dialog: " ++ m) true)
    | some (.ok _) =>
      let verb := match action with
        | .accept => "accepted"
        | .dismiss => "dismissed"
      AsyncR.ok (textResult ("Successfully " ++ verb ++ " the dialog") false)

-- ============================================
-- Emulation
-- ============================================

/-- A fixed download/upload/latency tier of the network-condition table
(throughputs in bytes per second, latency in milliseconds; the source's
arithmetic such as `1.6 * 1024 * 1024 / 8` is carried out in exact
rationals). -/
structure NetCond where
  download : ℚ
  upload : ℚ
  latency : ℚ
deriving DecidableEq

/-- The `NETWORK_CONDITIONS` table: the five named tiers with their fixed
values (the sentinels `No emulation` and `Offline` are not table entries and
are handled by their own branches of the handler). -/
def NETWORK_CONDITIONS : List (String × NetCond) :=
  [("Slow 3G", { download := 500 * 1024 / 8, upload := 500 * 1024 / 8, latency := 400 }),
   ("Fast 3G", { download := 1.6 * 1024 * 1024 / 8, upload := 750 * 1024 / 8, latency := 150 }),
   ("Regular 4G", { download := 4 * 1024 * 1024 / 8, upload := 3 * 1024 * 1024 / 8, latency := 20 }),
   ("DSL", { download := 2 * 1024 * 1024 / 8, upload := 1 * 1024 * 1024 / 8, latency := 5 }),
   ("WiFi", { download := 30 * 1024 * 1024 / 8, upload := 15 * 1024 * 1024 / 8, latency := 2 })]

/-- `name in NETWORK_CONDITIONS` followed by the table read. -/
def lookupNetworkCondition (name : String) : Option NetCond :=
  (NETWORK_CONDITIONS.find? fun p => p.1 == name).map Prod.snd

/-- The parameter record of one CDP command the emulation handler sends. -/
inductive CDPParams where
  | network (offline : Bool) (latency download upload : ℚ)
  | cpu (rate : ℚ)
  | geoClear
  | geoSet (latitude longitude accuracy : ℚ)
deriving DecidableEq

/-- One CDP command: method name and parameters. -/
structure CDPCommand where
  method : String
  params : CDPParams
deriving DecidableEq

/-- The geolocation argument of `browser_emulate`. -/
structure GeoArg where
  latitude : ℚ
  longitude : ℚ
deriving DecidableEq

/-- The arguments of a `browser_emulate` call.  `geolocation` distinguishes
absent (`none`), explicit null (`some none`) and an object
(`some (some g)`). -/
structure EmulateArgs where
  networkConditions : Option String
  cpuThrottlingRate : Option ℚ
  geolocation : Option (Option GeoArg)
deriving DecidableEq

/-- The sequence of `(command, result line)` pairs the `browser_emulate`
handler works through for the given arguments, in source order: the
network-conditions section (with its `No emulation` and `Offline` sentinel
branches and the table branch), the CPU-throttling section, the geolocation
section.  An argument left out contributes nothing; so does a network name
outside the sentinels and the table. -/
def emulateActions (args : EmulateArgs) : List (CDPCommand × String) :=
  (match args.networkConditions with
   | none => []
   | some nc =>
     if nc == "No emulation" then
       [({ method := "Network.emulateNetworkConditions",
           params := CDPParams.network false 0 (-1) (-1) },
         "Network: No emulation")]
     else if nc == "Offline" then
       [({ method := "Network.emulateNetworkConditions",
           params := CDPParams.network true 0 0 0 },
         "Network: Offline")]
     else
       match lookupNetworkCondition nc with
       | some cond =>
         [({ method := "Network.emulateNetworkConditions",
             params := CDPParams.network false cond.latency cond.download cond.upload },
           "Network: " ++ nc)]
       | none => []) ++
  (match args.cpuThrottlingRate with
   | none => []
   | some rate =>
     let r := toString rate
     [({ method := "Emulation.setCPUThrottlingRate", params := CDPParams.cpu rate },
       "CPU throttling: " ++ r ++ "x")]) ++
  (match args.geolocation with
   | none => []
   | some none =>
     [({ method := "Emulation.clearGeolocationOverride", params := CDPParams.geoClear },
       "Geolocation: cleared")]
   | some (some g) =>
     let la := toString g.latitude
     let lo := toString g.longitude
     [({ method := "Emulation.setGeolocationOverride",
         params := CDPParams.geoSet g.latitude g.longitude 100 },
       "Geolocation: " ++ la ++ ", " ++ lo)])

/-- Awaits each `sendCDPCommand` of the action sequence in order, inside the
try block and without any timeout race: a send that never settles leaves the
handler never settling, a rejected send is caught into the `Emulation
failed` error result, and once all sends resolved the collected lines (or
the no-change message when none) form the result.  The first component
records the commands actually sent. -/
def runEmulate (sendCDP : CDPCommand → AsyncR Unit) :
    List (CDPCommand × String) → List String → List CDPCommand × AsyncR ToolResult
  | [], results =>
    ([],
      AsyncR.ok
        (textResult
          (if results.isEmpty then "No emulation settings changed."
           else String.intercalate "\n" results)
          false))
  | (cmd, line) :: rest, results =>
    match sendCDP cmd with
    | none => ([cmd], AsyncR.hang)
    | some (.error e) =>
      let m := e.msg
      ([cmd], AsyncR.ok (textResult ("Emulation failed: " ++ m) true))
    | some (.ok _) =>
      let tail := runEmulate sendCDP rest (results ++ [line])
      (cmd :: tail.1, tail.2)

/-- The `browser_emulate` handler. -/
def browser_emulate (sendCDP : CDPCommand → AsyncR Unit)
    (active : Option String) (args : EmulateArgs) :
    List CDPCommand × AsyncR ToolResult :=
  if active.isNone then
    ([], AsyncR.ok (textResult "No active browser page." true))
  else
    runEmulate sendCDP (emulateActions args) []

-- ============================================
-- Console messages
-- ============================================

/-- A buffered console message record.  `msgArgs` carries the extra console
arguments, each already rendered to a string. -/
structure ConsoleMsg where
  id : String
  kind : String
  text : String
  timestamp : Int
  url : Option String
  lineNumber : Option Int
  stackTrace : Option String
  msgArgs : List String
deriving DecidableEq

/-- The arguments of a `browser_console` call. -/
structure ConsoleArgs where
  pageSize : Option Nat
  pageIdx : Option Nat
  types : Option (List String)
  includePreservedMessages : Option Bool
deriving DecidableEq

/-- The per-message lines of the `browser_console` listing: the
`[msgid=...] TYPE (time)` line, the truncated text line, the optional
source-location line (only for a truthy url), and the blank separator.
Locale time formatting (`toLocaleTimeString`) is environment-dependent and
is taken as a parameter. -/
def consoleMsgLines (formatTime : Int → String) (m : ConsoleMsg) : List String :=
  let t := formatTime m.timestamp
  let txt := truncateWithEllipsis 200 m.text
  let upper := m.kind.toUpper
  ["[msgid=" ++ m.id ++ "] " ++ upper ++ " (" ++ t ++ ")",
   "    " ++ txt] ++
  (match m.url with
   | some u =>
     if u == "" then []
     else
       let ln := match m.lineNumber with
         | some n => ":" ++ toString n
         | none => ""
       ["    at " ++ u ++ ln]
   | none => []) ++
  [""]

/-- The messages left after `browser_console`'s type filter. -/
def consoleFiltered (msgs : List ConsoleMsg) (types : Option (List String)) :
    List ConsoleMsg :=
  match types with
  | some ts =>
    if 0 < ts.length then msgs.filter fun m => ts.contains m.kind else msgs
  | none => msgs

/-- The slice `[pageIdx*pageSize, min(pageIdx*pageSize + pageSize, total))`
of a list, exactly as the handler's `slice(startIdx, endIdx)` takes it. -/
def pageSlice {α : Type} (l : List α) (pageIdx pageSize : Nat) : List α :=
  let total := l.length
  let startIdx := pageIdx * pageSize
  let endIdx := min (startIdx + pageSize) total
  (l.drop startIdx).take (endIdx - startIdx)

/-- The `browser_console` handler: type filter, pagination slice, empty-page
early return, then the header (with range and total when paginated), the
per-message lines, and the next-page hint exactly when records remain past
the returned page. -/
def browser_console (getMessages : Bool → List ConsoleMsg)
    (formatTime : Int → String) (args : ConsoleArgs) : ToolResult :=
  let messages :=
    consoleFiltered (getMessages (jsTruthyBool args.includePreservedMessages))
      args.types
  let total := messages.length
  let pageIdx := args.pageIdx.getD 0
  let pageMessages := match args.pageSize with
    | some ps => pageSlice messages pageIdx ps
    | none => messages
  if pageMessages.isEmpty then
    textResult "No console messages captured." false
  else
    let header := match args.pageSize with
      | some ps =>
        let lo := toString (pageIdx * ps + 1)
        let hi := toString (min (pageIdx * ps + ps) total)
        let tot := toString total
        "Console Messages (" ++ lo ++ "-" ++ hi ++ " of " ++ tot ++ "):"
      | none =>
        let tot := toString total
        "Console Messages (" ++ tot ++ " total):"
    let hint := match args.pageSize with
      | some ps =>
        if pageIdx * ps + pageMessages.length < total then
          let next := toString (pageIdx + 1)
          ["Use pageIdx=" ++ next ++ " to see more messages."]
        else []
      | none => []
    textResult
      (String.intercalate "\n"
        (header :: "" :: (pageMessages.flatMap (consoleMsgLines formatTime) ++ hint)))
      false

/-- The detail lines of `browser_console_message`: type, timestamp (locale
date-time formatting is environment-dependent and taken as a parameter),
source location for a truthy url, the fenced message, the optional stack
trace, and the optional arguments (their JSON rendering taken as a
parameter). -/
def consoleMsgDetailLines (formatDateTime : Int → String)
    (stringifyArgs : List String → String) (m : ConsoleMsg) : List String :=
  ["# Console Message: msgid=" ++ m.id, "",
   "## Type: " ++ m.kind.toUpper,
   "Timestamp: " ++ formatDateTime m.timestamp, ""] ++
  (match m.url with
   | some u =>
     if u == "" then []
     else
       ["## Source", "File: " ++ u] ++
       (match m.lineNumber with
        | some n => ["Line: " ++ toString n]
        | none => []) ++ [""]
   | none => []) ++
  ["## Message", "```", m.text, "```"] ++
  (match m.stackTrace with
   | some st => if st == "" then [] else ["", "## Stack Trace", "```", st, "```"]
   | none => []) ++
  (if m.msgArgs.length > 0 then
    ["", "## Arguments", "```json", stringifyArgs m.msgArgs, "```"]
   else [])

/-- The `browser_console_message` handler: a point lookup by the stringified
msgid; a miss is the not-found error result, a hit the rendered detail.  All
synchronous — nothing can escape the try block. -/
def browser_console_message (getConsoleMessage : String → Option ConsoleMsg)
    (formatDateTime : Int → String) (stringifyArgs : List String → String)
    (msgid : ℚ) : ToolResult :=
  match getConsoleMessage (toString msgid) with
  | none => textResult ("Message not found: " ++ toString msgid) true
  | some message =>
    textResult
      (String.intercalate "\n" (consoleMsgDetailLines formatDateTime stringifyArgs message))
      false

-- ============================================
-- Network requests
-- ============================================

/-- The timing record of a network request. -/
structure NetTiming where
  duration : Int
deriving DecidableEq

/-- A buffered network request record. -/
structure NetworkReq where
  id : String
  url : String
  method : String
  resourceType : String
  status : Option Int
  statusText : Option String
  mimeType : Option String
  timing : Option NetTiming
  requestHeaders : List (String × String)
  responseHeaders : List (String × String)
  requestBody : Option String
  error : Option String
deriving DecidableEq

/-- The arguments of a `browser_network_requests` call. -/
structure NetworkArgs where
  pageSize : Option Nat
  pageIdx : Option Nat
  resourceTypes : Option (List String)
  includePreservedRequests : Option Bool
deriving DecidableEq

/-- The per-request lines of the `browser_network_requests` listing: status
falls back to `pending` when falsy, duration to `-` when the timing or its
duration is falsy, the URL is truncated at 100 characters, a truthy error
adds its line, then the blank separator. -/
def netReqLines (r : NetworkReq) : List String :=
  let status := match r.status with
    | some s => if s == 0 then "pending" else toString s
    | none => "pending"
  let duration := match r.timing with
    | some t => if t.duration == 0 then "-" else toString t.duration ++ "ms"
    | none => "-"
  let u := truncateWithEllipsis 100 r.url
  ["[reqid=" ++ r.id ++ "] " ++ r.method ++ " " ++ status ++ " " ++ r.resourceType,
   "    URL: " ++ u,
   "    Duration: " ++ duration] ++
  (match r.error with
   | some e => if e == "" then [] else ["    Error: " ++ e]
   | none => []) ++
  [""]

/-- The requests left after `browser_network_requests`' resource-type
filter (both sides lower-cased). -/
def networkFiltered (reqs : List NetworkReq)
    (resourceTypes : Option (List String)) : List NetworkReq :=
  match resourceTypes with
  | some ts =>
    if 0 < ts.length then
      reqs.filter fun r => (ts.map String.toLower).contains r.resourceType.toLower
    else reqs
  | none => reqs

/-- The `browser_network_requests` handler: resource-type filter, pagination
slice, empty-page early return, then the header, the per-request lines, and
the next-page hint exactly when records remain past the returned page. -/
def browser_network_requests (getRequests : Bool → List NetworkReq)
    (args : NetworkArgs) : ToolResult :=
  let requests :=
    networkFiltered (getRequests (jsTruthyBool args.includePreservedRequests))
      args.resourceTypes
  let total := requests.length
  let pageIdx := args.pageIdx.getD 0
  let pageRequests := match args.pageSize with
    | some ps => pageSlice requests pageIdx ps
    | none => requests
  if pageRequests.isEmpty then
    textResult "No network requests captured." false
  else
    let header := match args.pageSize with
      | some ps =>
        let lo := toString (pageIdx * ps + 1)
        let hi := toString (min (pageIdx * ps + ps) total)
        let tot := toString total
        "Network Requests (" ++ lo ++ "-" ++ hi ++ " of " ++ tot ++ "):"
      | none =>
        let tot := toString total
        "Network Requests (" ++ tot ++ " total):"
    let hint := match args.pageSize with
      | some ps =>
        if pageIdx * ps + pageRequests.length < total then
          let next := toString (pageIdx + 1)
          ["Use pageIdx=" ++ next ++ " to see more requests."]
        else []
      | none => []
    textResult
      (String.intercalate "\n"
        (header :: "" :: (pageRequests.flatMap netReqLines ++ hint)))
      false

/-- The detail lines of `browser_network_request`: basic info with
truthiness fallbacks (`pending`, empty status text, `unknown` mime type),
then timing, header lists when non-empty, the truncated request body, and
the error. -/
def netReqDetailLines (r : NetworkReq) : List String :=
  let status := match r.status with
    | some s => if s == 0 then "pending" else toString s
    | none => "pending"
  let sText := match r.statusText with
    | some st => st
    | none => ""
  let mime := match r.mimeType with
    | some m => if m == "" then "unknown" else m
    | none => "unknown"
  ["# Network Request: reqid=" ++ r.id, "",
   "## Basic Info",
   "URL: " ++ r.url,
   "Method: " ++ r.method,
   "Resource Type: " ++ r.resourceType,
   "Status: " ++ status ++ " " ++ sText,
   "MIME Type: " ++ mime, ""] ++
  (match r.timing with
   | some t => ["## Timing", "Duration: " ++ toString t.duration ++ "ms", ""]
   | none => []) ++
  (if r.requestHeaders.length > 0 then
    "## Request Headers" :: ((r.requestHeaders.map fun p => p.1 ++ ": " ++ p.2) ++ [""])
   else []) ++
  (if r.responseHeaders.length > 0 then
    "## Response Headers" :: ((r.responseHeaders.map fun p => p.1 ++ ": " ++ p.2) ++ [""])
   else []) ++
  (match r.requestBody with
   | some b =>
     if b == "" then []
     else
       ["## Request Body", "```", String.mk (b.data.take 2000)] ++
       (if b.length > 2000 then ["... (truncated)"] else []) ++ ["```", ""]
   | none => []) ++
  (match r.error with
   | some e => if e == "" then [] else ["## Error", e]
   | none => [])

/-- The `browser_network_request` handler: with a reqid, a point lookup by
its stringified value (a miss is the not-found error result); without one,
the DevTools-panel selection (nothing selected is a benign non-error
notice).  All synchronous — nothing can escape the try block. -/
def browser_network_request (getNetworkRequest : String → Option NetworkReq)
    (selected : Option NetworkReq) (reqid : Option ℚ) : ToolResult :=
  match reqid with
  | some rid =>
    match getNetworkRequest (toString rid) with
    | none => textResult ("Request not found: " ++ toString rid) true
    | some request =>
      textResult (String.intercalate "\n" (netReqDetailLines request)) false
  | none =>
    match selected with
    | none => textResult "Nothing is currently selected in the DevTools Network panel." false
    | some request =>
      textResult (String.intercalate "\n" (netReqDetailLines request)) false

-- ============================================
-- Performance trace
-- ============================================

/-- The metric set `stopPerformanceTrace` resolves with. -/
def TraceMetrics : Type := List (String × ℚ)

/-- The mutable state the performance tools read and write: the active-view
pointer and the single process-wide trace session, `tracing = true` standing
for the Recording state. -/
structure PerfState where
  activeViewId : Option String
  tracing : Bool

/-- Modelled from the spec: `BrowserContext.startPerformanceTrace` (its
source is not in the repository snapshot) fails `AlreadyTracing` while a
trace is Recording, and otherwise moves the session to Recording. -/
def startPerformanceTraceM (s : PerfState) : Except JSError PerfState :=
  if s.tracing then .error (.error "AlreadyTracing: a trace is already being recorded")
  else .ok { s with tracing := true }

/-- The collaborator behaviors of the performance tools.
`stopTrace` is what `stopPerformanceTrace` resolves with (duration and
metrics); `formatTrace` is `formatTraceResults`, whose summary text uses
floating-point `toFixed` rendering and is kept abstract — no theorem below
depends on the summary text. -/
structure PerfEnv where
  getPageUrl : String
  navigate : String → String → AsyncR Unit
  waitForNavigation : Nat → AsyncR Unit
  stopTrace : Nat × TraceMetrics
  formatTrace : Nat → TraceMetrics → String

/-- Modelled from the spec: `BrowserContext.stopPerformanceTrace` returns
the duration and metrics and moves the session back to Idle. -/
def stopPerformanceTraceM (env : PerfEnv) (s : PerfState) :
    (Nat × TraceMetrics) × PerfState :=
  (env.stopTrace, { s with tracing := false })

/-- The tail of `browser_perf_start`'s try block: with `autoStop` the trace
is stopped after the 5s sleep and the summary returned, otherwise the
recording notice is returned. -/
def perfStartFinish (env : PerfEnv) (s : PerfState) (autoStop : Bool) :
    PerfState × AsyncR ToolResult :=
  if autoStop then
    let step := stopPerformanceTraceM env s
    let d := step.1.1
    let metrics := step.1.2
    (step.2, AsyncR.ok (textResult (env.formatTrace d metrics) false))
  else
    (s, AsyncR.ok
      (textResult "The performance trace is being recorded. Use browser_perf_stop to stop it." false))

/-- The `Failed to start trace` error result of `browser_perf_start`'s
catch. -/
def perfStartFailed (e : JSError) : AsyncR ToolResult :=
  let m := e.msg
  AsyncR.ok (textResult ("Failed to start trace: " ++ m) true)

/-- The try block of `browser_perf_start`: with `reload` the page is parked
on `about:blank`, the trace started, the original url re-navigated and the
navigation awaited (each awaited call can hang or reject; a rejection is
caught into the error result, with any state change already made kept);
without `reload` the trace is simply started. -/
def perfStartBody (env : PerfEnv) (s : PerfState) (viewId : String)
    (reload autoStop : Bool) : PerfState × AsyncR ToolResult :=
  if reload then
    let currentUrl := env.getPageUrl
    match env.navigate viewId "about:blank" with
    | none => (s, AsyncR.hang)
    | some (.error e) => (s, perfStartFailed e)
    | some (.ok _) =>
      match startPerformanceTraceM s with
      | .error e => (s, perfStartFailed e)
      | .ok s1 =>
        match env.navigate viewId currentUrl with
        | none => (s1, AsyncR.hang)
        | some (.error e) => (s1, perfStartFailed e)
        | some (.ok _) =>
          match env.waitForNavigation NAV_TIMEOUT with
          | none => (s1, AsyncR.hang)
          | some (.error e) => (s1, perfStartFailed e)
          | some (.ok _) => perfStartFinish env s1 autoStop
  else
    match startPerformanceTraceM s with
    | .error e => (s, perfStartFailed e)
    | .ok s1 => perfStartFinish env s1 autoStop

/-- The `browser_perf_start` handler: active-view check, then the
single-flight guard — a session already Recording is refused before
anything is started — then the try block. -/
def browser_perf_start (env : PerfEnv) (s : PerfState)
    (reload autoStop : Bool) : PerfState × AsyncR ToolResult :=
  match s.activeViewId with
  | none => (s, AsyncR.ok (textResult "No active browser page." true))
  | some viewId =>
    if s.tracing then
      (s, AsyncR.ok
        (textResult
          "Error: a performance trace is already running. Use browser_perf_stop to stop it. Only one trace can be running at any given time."
          true))
    else
      perfStartBody env s viewId reload autoStop

/-- The `browser_perf_stop` handler: active-view check, then the Idle case
returns the benign no-op notice without `isError`, and the Recording case
stops the trace and returns the summary. -/
def browser_perf_stop (env : PerfEnv) (s : PerfState) :
    PerfState × AsyncR ToolResult :=
  match s.activeViewId with
  | none => (s, AsyncR.ok (textResult "No active browser page." true))
  | some _ =>
    if !s.tracing then
      (s, AsyncR.ok (textResult "No performance trace is running." false))
    else
      let step := stopPerformanceTraceM env s
      let d := step.1.1
      let metrics := step.1.2
      (step.2, AsyncR.ok (textResult (env.formatTrace d metrics) false))

/-- The `browser_perf_insight` handler: active-view check, then the awaited
`getPerformanceMetrics` — not wrapped in any timeout race, so a metrics read
that never settles leaves the handler never settling; its rejection is
caught into the failure result.  The report body (the switch over the
insight name, with its floating-point `toFixed` rendering) is kept abstract
as `renderInsight` — no theorem depends on the report text. -/
def browser_perf_insight (getPerformanceMetrics : AsyncR TraceMetrics)
    (renderInsight : String → String → TraceMetrics → String)
    (active : Option String) (insightSetId insightName : String) :
    AsyncR ToolResult :=
  if active.isNone then
    AsyncR.ok (textResult "No active browser page." true)
  else
    match getPerformanceMetrics with
    | none => AsyncR.hang
    | some (.error e) =>
      AsyncR.ok (textResult ("Failed to analyze insight: " ++ e.msg) true)
    | some (.ok metrics) =>
      AsyncR.ok (textResult (renderInsight insightSetId insightName metrics) false)

/-- A normalized tool result: the content envelope is a non-empty list of
text/image blocks. -/
def contentNonempty (r : ToolResult) : Bool :=
  !r.content.isEmpty

/-- A handler outcome is clean when, whenever it settles, it settles to a
normalized result rather than an escaped thrown value. -/
def settlesClean (x : AsyncR ToolResult) : Bool :=
  match x with
  | none => true
  | some (.error _) => false
  | some (.ok r) => contentNonempty r

/-- A state-carrying handler outcome is clean when it is a normalized
result, never an escaped thrown value. -/
def stateClean {σ : Type} (x : Except JSError (σ × ToolResult)) : Bool :=
  match x with
  | .error _ => false
  | .ok p => contentNonempty p.2

/-- The filtered message list `browser_console` paginates. -/
def consoleSourceList (getMessages : Bool → List ConsoleMsg) (args : ConsoleArgs) :
    List ConsoleMsg :=
  consoleFiltered (getMessages (jsTruthyBool args.includePreservedMessages)) args.types

/-- The filtered request list `browser_network_requests` paginates. -/
def networkSourceList (getRequests : Bool → List NetworkReq) (args : NetworkArgs) :
    List NetworkReq :=
  networkFiltered (getRequests (jsTruthyBool args.includePreservedRequests))
    args.resourceTypes

-- ============================================
-- Concrete fixtures used by witnesses and counterexamples
-- ============================================

/-- Twenty-five buffered console messages, ids 0..24. -/
def demoConsoleMsgs : List ConsoleMsg :=
  (List.range 25).map fun i =>
    { id := toString i, kind := "log", text := "m" ++ toString i,
      timestamp := 0, url := none, lineNumber := none,
      stackTrace := none, msgArgs := [] }

/-- Three buffered network requests, ids 0..2. -/
def demoNetReqs : List NetworkReq :=
  (List.range 3).map fun i =>
    { id := toString i, url := "https://example.test/" ++ toString i,
      method := "GET", resourceType := "fetch", status := some 200,
      statusText := none, mimeType := none,
      timing := some { duration := 5 },
      requestHeaders := [], responseHeaders := [],
      requestBody := none, error := none }

/-- The schema-valid non-integer page index one half (`z.number()` accepts
fractional values). -/
def halfIdx : ℚ := ⟨1, 2, by decide, by decide⟩

/-- A navigation environment whose collaborator calls all resolve and that
reports no view state. -/
def demoNavEnv : NavEnv :=
  { navigate := fun _ _ => AsyncR.ok (),
    waitForNavigation := fun _ => AsyncR.ok (),
    getState := fun _ => none }

/-- A new-page environment whose collaborator calls all resolve and that
reports no view state. -/
def demoNewPageEnv : NewPageEnv :=
  { create := fun _ _ => AsyncR.ok (),
    waitForNavigation := fun _ => AsyncR.ok (),
    getState := fun _ => none }

/-- A `browser_emulate` call that sets only the named network conditions,
against an active view and a CDP layer whose sends all resolve. -/
def emulateNetworkCall (nc : String) : List CDPCommand × AsyncR ToolResult :=
  browser_emulate (fun _ => AsyncR.ok ()) (some "view")
    { networkConditions := some nc, cpuThrottlingRate := none, geolocation := none }

/-- A combobox element with one option child, as a snapshot could resolve
it. -/
def demoCombobox : ElementNode :=
  ElementNode.node "combobox" [ElementNode.node "option" []]

/-- A fill environment whose uid `u` resolves to the demo combobox and whose
element actions both resolve. -/
def demoFillEnv : FillEnv :=
  { elementByUid := fun uid => if uid == "u" then some demoCombobox else none,
    selectOption := fun _ _ => AsyncR.ok (),
    fillElement := fun _ _ => AsyncR.ok () }

/-- A fill environment under which an element with uid `bad` fails while
every other element fills fine. -/
def partialFillEnv : FillEnv :=
  { elementByUid := fun _ => none,
    selectOption := fun _ _ => AsyncR.ok (),
    fillElement := fun uid _ =>
      if uid == "bad" then AsyncR.err (JSError.error "boom") else AsyncR.ok () }

/-- A fill environment whose `fillElement` never settles (no element
resolves, so every fill goes directly to the hanging `fillElement`). -/
def hangFillEnv : FillEnv :=
  { elementByUid := fun _ => none,
    selectOption := fun _ _ => AsyncR.ok (),
    fillElement := fun _ _ => AsyncR.hang }

/-- A performance-tool environment whose collaborator calls all resolve. -/
def demoPerfEnv : PerfEnv :=
  { getPageUrl := "https://example.test/",
    navigate := fun _ _ => AsyncR.ok (),
    waitForNavigation := fun _ => AsyncR.ok (),
    stopTrace := (1000, []),
    formatTrace := fun _ _ => "trace summary" }

end Halo

namespace Halo

-- ============================================
-- Theorems
-- ============================================

/-- C8: each named emulation network preset maps to fixed
download/upload/latency values sent in the `Network.emulateNetworkConditions`
command ('Slow 3G' = 500*1024/8 down, 500*1024/8 up, 400ms latency; 'WiFi' =
30*1024*1024/8 down, 15*1024*1024/8 up, 2ms latency; likewise 'Fast 3G',
'Regular 4G' and 'DSL'), while 'No emulation' and 'Offline' are
distinguished sentinels: 'No emulation' sends offline:false with throughput
-1 and latency 0, and 'Offline' sends offline:true with throughput 0 and
latency 0. -/
theorem emulate_network_preset_values :
    emulateNetworkCall "Slow 3G" =
      ([{ method := "Network.emulateNetworkConditions",
          params := CDPParams.network false 400 (500 * 1024 / 8) (500 * 1024 / 8) }],
        AsyncR.ok (textResult "Network: Slow 3G" false)) ∧
    emulateNetworkCall "Fast 3G" =
      ([{ method := "Network.emulateNetworkConditions",
          params := CDPParams.network false 150 (1.6 * 1024 * 1024 / 8) (750 * 1024 / 8) }],
        AsyncR.ok (textResult "Network: Fast 3G" false)) ∧
    emulateNetworkCall "Regular 4G" =
      ([{ method := "Network.emulateNetworkConditions",
          params := CDPParams.network false 20 (4 * 1024 * 1024 / 8) (3 * 1024 * 1024 / 8) }],
        AsyncR.ok (textResult "Network: Regular 4G" false)) ∧
    emulateNetworkCall "DSL" =
      ([{ method := "Network.emulateNetworkConditions",
          params := CDPParams.network false 5 (2 * 1024 * 1024 / 8) (1 * 1024 * 1024 / 8) }],
        AsyncR.ok (textResult "Network: DSL" false)) ∧
    emulateNetworkCall "WiFi" =
      ([{ method := "Network.emulateNetworkConditions",
          params := CDPParams.network false 2 (30 * 1024 * 1024 / 8) (15 * 1024 * 1024 / 8) }],
        AsyncR.ok (textResult "Network: WiFi" false)) ∧
    emulateNetworkCall "No emulation" =
      ([{ method := "Network.emulateNetworkConditions",
          params := CDPParams.network false 0 (-1) (-1) }],
        AsyncR.ok (textResult "Network: No emulation" false)) ∧
    emulateNetworkCall "Offline" =
      ([{ method := "Network.emulateNetworkConditions",
          params := CDPParams.network true 0 0 0 }],
        AsyncR.ok (textResult "Network: Offline" false)) := by
  exact ⟨rfl, rfl, rfl, rfl, rfl, rfl, rfl⟩

/-- C10: when `getElementByUid` resolves no element for the uid, the
combobox logic is skipped entirely and `fillElement` is attempted directly,
so the fill fails only if the underlying `fillElement` fails. -/
theorem fillFormElement_unresolved_uid
    (env : FillEnv) (uid value : String)
    (h : env.elementByUid uid = none) :
    fillFormElement env uid value = ([FillCall.fillElement], env.fillElement uid value) := by
  unfold fillFormElement
  rw [h]

/-- Witness for C10 at a concrete unresolvable uid. -/
theorem fillFormElement_unresolved_uid_witness :
    fillFormElement demoFillEnv "stale" "x" =
      ([FillCall.fillElement], demoFillEnv.fillElement "stale" "x") :=
  fillFormElement_unresolved_uid demoFillEnv "stale" "x" rfl

/-- C3: on a combobox element with at least one option child,
`fillFormElement` attempts `selectOption` first; a failure specifically
because no matching option exists (an `Error` whose message carries the
option-not-found marker) falls back to direct `fillElement`; any other
`selectOption` failure propagates unchanged; and an element without option
children, or a non-combobox element, is always filled directly via
`fillElement`. -/
theorem fillFormElement_combobox_disambiguation
    (env : FillEnv) (uid value : String) (el : ElementNode)
    (helem : env.elementByUid uid = some el) :
    (el.role = "combobox" →
      ((el.children.any fun c => c.role == "option") = true →
        (env.selectOption uid value = AsyncR.ok () →
          fillFormElement env uid value = ([FillCall.selectOption], AsyncR.ok ())) ∧
        (∀ e : JSError, env.selectOption uid value = AsyncR.err e →
          (isOptionNotFound e = true →
            fillFormElement env uid value =
              ([FillCall.selectOption, FillCall.fillElement], env.fillElement uid value)) ∧
          (isOptionNotFound e = false →
            fillFormElement env uid value = ([FillCall.selectOption], AsyncR.err e)))) ∧
      ((el.children.any fun c => c.role == "option") = false →
        fillFormElement env uid value = ([FillCall.fillElement], env.fillElement uid value))) ∧
    (el.role ≠ "combobox" →
      fillFormElement env uid value = ([FillCall.fillElement], env.fillElement uid value)) := by
  unfold fillFormElement
  rw [helem]
  constructor
  · intro hrole
    constructor
    · intro hopts
      constructor
      · intro hsel
        simp [hrole, hopts, hsel, AsyncR.ok]
      · intro e hsel
        constructor
        · intro hmarker
          simp [hrole, hopts, hsel, hmarker, AsyncR.err]
        · intro hmarker
          simp [hrole, hopts, hsel, hmarker, AsyncR.err]
    · intro hopts
      simp [hrole, hopts]
  · intro hrole
    have : (el.role == "combobox") = false := by
      simpa using hrole
    simp [this]

/-- Witness for C3 at the demo combobox: the select path resolves when a
matching option exists. -/
theorem fillFormElement_combobox_disambiguation_witness :
    fillFormElement demoFillEnv "u" "x" = ([FillCall.selectOption], AsyncR.ok ()) := by
  have h :=
    (fillFormElement_combobox_disambiguation demoFillEnv "u" "x" demoCombobox rfl).1
  exact ((h rfl).1 (by decide)).1 rfl

/-- C6: closing the page when exactly one view remains fails with the
last-page error result and does not destroy the view — a subsequent
`browser_list_pages` still reports exactly that one view; with more than one
view and a valid index, the target view is destroyed and removed from the
list. -/
theorem close_page_last_view_guard :
    (∀ v : ViewState,
      browser_close_page [v] 0 =
        .ok ([v], textResult "The last open page cannot be closed." true) ∧
      browser_list_pages [v] =
        textResult (String.intercalate "\n" ["Open browser pages:", listPageLine 0 v])
          false) ∧
    (∀ (views : List ViewState) (pageIdx : Int) (target : ViewState),
      1 < views.length → 0 ≤ pageIdx → pageIdx < (views.length : Int) →
      views.get? pageIdx.toNat = some target →
      browser_close_page views pageIdx =
        .ok (views.eraseP (fun w => w.id == target.id),
          textResult ("Closed page [" ++ toString pageIdx ++ "]: " ++ titleOrUntitled target)
            false)) := by
  constructor
  · intro v
    constructor
    · rfl
    · simp [browser_list_pages, List.enum]
  · intro views pageIdx target hlen hlo hhi hget
    have hmem : target ∈ views := List.get?_mem hget
    have hany : (views.any fun v => v.id == target.id) = true := by
      rw [List.any_eq_true]
      exact ⟨target, hmem, by simp⟩
    have hguard : ¬((pageIdx : ℚ) < 0 || (views.length : ℚ) ≤ (pageIdx : ℚ)) = true := by
      simp only [Bool.or_eq_true, decide_eq_true_eq]
      push_neg
      exact ⟨by exact_mod_cast hlo, by exact_mod_cast hhi⟩
    have hne1 : (views.length == 1) = false := by
      simp only [beq_eq_false_iff_ne, ne_eq]
      omega
    have hjs : jsIndex views ((pageIdx : ℚ)) = some target := by
      unfold jsIndex
      rw [if_pos ⟨rfl, by simpa using hlo⟩]
      simpa using hget
    unfold browser_close_page
    rw [if_neg (by simpa using hguard), hne1]
    simp only [Bool.false_eq_true, if_false]
    rw [hjs]
    dsimp only
    unfold destroyView
    rw [hany]
    simp only [Bool.not_true, Bool.false_eq_true, if_false, hne1]
    rfl

/-- Witness for C6. -/
theorem close_page_last_view_guard_witness :
    browser_close_page
        [{ id := "a", title := "A", url := "ua" }, { id := "b", title := "B", url := "ub" }] 1 =
      .ok ([{ id := "a", title := "A", url := "ua" }],
        textResult "Closed page [1]: B" false) ∧
    browser_close_page [{ id := "a", title := "A", url := "ua" }] 0 =
      .ok ([{ id := "a", title := "A", url := "ua" }],
        textResult "The last open page cannot be closed." true) := by
  constructor
  · have h := close_page_last_view_guard.2
      [{ id := "a", title := "A", url := "ua" }, { id := "b", title := "B", url := "ub" }]
      1 { id := "b", title := "B", url := "ub" } (by decide) (by decide) (by decide) rfl
    exact h.trans (by decide)
  · exact (close_page_last_view_guard.1 { id := "a", title := "A", url := "ua" }).1

/-- C7: the performance-trace session is single-flight at the tool level —
with an active view and an Idle session, `browser_perf_start` (no reload, no
auto-stop) succeeds and moves the session to Recording, and a second
`browser_perf_start` without an intervening stop fails with the
already-running error; `browser_perf_stop` while Idle returns the benign
non-error no-op notice and leaves the state unchanged. -/
theorem perf_trace_single_flight
    (env : PerfEnv) (s : PerfState) (v : String)
    (hview : s.activeViewId = some v) (hidle : s.tracing = false) :
    (browser_perf_start env s false false).2 =
      AsyncR.ok
        (textResult "The performance trace is being recorded. Use browser_perf_stop to stop it."
          false) ∧
    (browser_perf_start env s false false).1.tracing = true ∧
    (browser_perf_start env (browser_perf_start env s false false).1 false false).2 =
      AsyncR.ok
        (textResult
          "Error: a performance trace is already running. Use browser_perf_stop to stop it. Only one trace can be running at any given time."
          true) ∧
    browser_perf_stop env s =
      (s, AsyncR.ok (textResult "No performance trace is running." false)) := by
  obtain ⟨av, tr⟩ := s
  simp only at hview hidle
  subst hview
  subst hidle
  exact ⟨rfl, rfl, rfl, rfl⟩

/-- Witness for C7 at a concrete environment and state. -/
theorem perf_trace_single_flight_witness :
    (browser_perf_start demoPerfEnv { activeViewId := some "v", tracing := false }
        false false).2 =
      AsyncR.ok
        (textResult "The performance trace is being recorded. Use browser_perf_stop to stop it."
          false) ∧
    (browser_perf_start demoPerfEnv
        (browser_perf_start demoPerfEnv { activeViewId := some "v", tracing := false }
          false false).1
        false false).2 =
      AsyncR.ok
        (textResult
          "Error: a performance trace is already running. Use browser_perf_stop to stop it. Only one trace can be running at any given time."
          true) ∧
    browser_perf_stop demoPerfEnv { activeViewId := some "v", tracing := false } =
      ({ activeViewId := some "v", tracing := false },
        AsyncR.ok (textResult "No performance trace is running." false)) := by
  have h := perf_trace_single_flight demoPerfEnv
    { activeViewId := some "v", tracing := false } "v" rfl rfl
  exact ⟨h.1, h.2.2.1, h.2.2.2⟩

/-- The filtered list keeps the whole list's length exactly when every
element satisfies the predicate. -/
theorem filter_length_beq_all {α : Type} (p : α → Bool) (l : List α) :
    ((l.filter p).length == l.length) = l.all p := by
  induction l with
  | nil => rfl
  | cons a l ih =>
    by_cases hpa : p a = true
    · simp only [List.filter_cons, hpa, if_true, List.length_cons, List.all_cons,
        Bool.true_and]
      simpa using ih
    · simp only [List.filter_cons, hpa, Bool.false_eq_true, if_false, List.length_cons,
        List.all_cons, Bool.false_and]
      have hle := List.length_filter_le p l
      rw [beq_eq_false_iff_ne]
      omega

/-- The `browser_fill_form` loop attempts every element in order: the
attempted uids are the input uids, whatever the outcomes. -/
theorem fillFormRun_attempts (env : FillEnv) (elements : List FormElem) :
    (fillFormRun env elements).1 = elements.map fun e => e.uid := by
  induction elements with
  | nil => rfl
  | cons e rest ih =>
    unfold fillFormRun
    rcases hw : withTimeout (fillFormElement env e.uid e.value).2 TOOL_TIMEOUT
        "browser_fill_form" with err | u
    · simpa [hw] using ih
    · simpa [hw] using ih

/-- The `browser_fill_form` loop collects exactly the error line of each
failing element, in order. -/
theorem fillFormRun_errors (env : FillEnv) (elements : List FormElem) :
    (fillFormRun env elements).2 =
      (elements.filter (fillAttemptFails env)).map (fillFailLine env) := by
  induction elements with
  | nil => rfl
  | cons e rest ih =>
    unfold fillFormRun
    rcases hw : withTimeout (fillFormElement env e.uid e.value).2 TOOL_TIMEOUT
        "browser_fill_form" with err | u
    · have hf : fillAttemptFails env e = true := by
        unfold fillAttemptFails
        rw [hw]
      have hl : fillFailLine env e = e.uid ++ ": " ++ err.msg := by
        unfold fillFailLine
        rw [hw]
      simp [hw, List.filter_cons, hf, hl, ih]
    · have hf : fillAttemptFails env e = false := by
        unfold fillAttemptFails
        rw [hw]
      simp [hw, List.filter_cons, hf, ih]

/-- C9: with an active view and a non-empty element list, `browser_fill_form`
attempts every element in order even after earlier failures; the result
carries `isError` exactly when all elements failed; when some but not all
fail, it returns the non-error partial-fill result listing each failed uid
with its message; and when none fail it reports success. -/
theorem fill_form_partial_failures (env : FillEnv) (v : String)
    (elements : List FormElem) (hne : elements ≠ []) :
    (browser_fill_form env (some v) elements).1 = (elements.map fun e => e.uid) ∧
    (browser_fill_form env (some v) elements).2.isError =
      elements.all (fillAttemptFails env) ∧
    (0 < (elements.filter (fillAttemptFails env)).length →
      (elements.filter (fillAttemptFails env)).length < elements.length →
      (browser_fill_form env (some v) elements).2 =
        textResult
          ("Partially filled out the form.\n\nErrors:\n" ++
            String.intercalate "\n"
              ((elements.filter (fillAttemptFails env)).map (fillFailLine env)))
          false) ∧
    ((elements.filter (fillAttemptFails env)).length = 0 →
      (browser_fill_form env (some v) elements).2 =
        textResult "Successfully filled out the form" false) := by
  have hrun1 := fillFormRun_attempts env elements
  have hrun2 := fillFormRun_errors env elements
  have hlen : (fillFormRun env elements).2.length =
      ((elements.filter (fillAttemptFails env)).map (fillFailLine env)).length := by
    rw [hrun2]
  unfold browser_fill_form
  simp only [Option.isNone_some, Bool.false_eq_true, if_false]
  by_cases hpos : 0 < (fillFormRun env elements).2.length
  · rw [if_pos hpos]
    refine ⟨hrun1, ?_, ?_, ?_⟩
    · simp only [textResult]
      rw [hrun2]
      rw [List.length_map]
      have hflen : ((elements.filter (fillAttemptFails env)).length ==
          elements.length) = elements.all (fillAttemptFails env) :=
        filter_length_beq_all (fillAttemptFails env) elements
      exact hflen
    · intro hsome hlt
      rw [hrun2]
      have hne2 : ((elements.filter (fillAttemptFails env)).length ==
          elements.length) = false := by
        rw [beq_eq_false_iff_ne]
        omega
      rw [List.length_map, hne2]
    · intro hzero
      exfalso
      rw [hlen, List.length_map] at hpos
      omega
  · rw [if_neg hpos]
    have hzero : (elements.filter (fillAttemptFails env)).length = 0 := by
      rw [hlen, List.length_map] at hpos
      omega
    have hallfalse : elements.all (fillAttemptFails env) = false := by
      have := filter_length_beq_all (fillAttemptFails env) elements
      rw [hzero] at this
      rcases hne2 : elements with _ | ⟨a, l⟩
      · exact absurd hne2 hne
      · rw [hne2] at this
        simp only [List.length_cons] at this
        rw [← this]
        rfl
    refine ⟨hrun1, ?_, ?_, fun _ => rfl⟩
    · simp only [textResult]
      exact hallfalse.symm
    · intro hsome hlt
      omega

/-- Witness for C9: one failing and one succeeding element. -/
theorem fill_form_partial_failures_witness :
    (browser_fill_form partialFillEnv (some "v")
        [{ uid := "good", value := "1" }, { uid := "bad", value := "2" }]).1 =
      ["good", "bad"] ∧
    (browser_fill_form partialFillEnv (some "v")
        [{ uid := "good", value := "1" }, { uid := "bad", value := "2" }]).2 =
      textResult "Partially filled out the form.\n\nErrors:\nbad: boom" false := by
  have h := fill_form_partial_failures partialFillEnv "v"
    [{ uid := "good", value := "1" }, { uid := "bad", value := "2" }] (by decide)
  refine ⟨h.1.trans (by decide), ?_⟩
  have h3 := h.2.2.1 (by decide) (by decide)
  exact h3.trans (by decide)

/-- C4 counterexample: the underlying calls of `browser_resize`,
`browser_emulate` and `browser_handle_dialog` are not wrapped in any timeout
race — with an underlying operation that never settles, each of these
handlers itself never settles instead of yielding a Timeout error result. -/
theorem unwrapped_tools_hang_counterexample :
    browser_resize AsyncR.hang (some "v") 800 600 = AsyncR.hang ∧
    (browser_emulate (fun _ => AsyncR.hang) (some "v")
        { networkConditions := some "WiFi", cpuThrottlingRate := none,
          geolocation := none }).2 = AsyncR.hang ∧
    browser_handle_dialog (some { kind := "confirm", message := "m", defaultValue := none })
        AsyncR.hang DialogAction.accept none = AsyncR.hang :=
  ⟨rfl, rfl, rfl⟩

/-- C4 amended: the ten tools that go through `withTimeout` — click, hover,
fill, fill_form, drag, press_key, upload_file, snapshot, screenshot,
evaluate — are wrapped in the default 60s timeout race, so a click, hover,
or fill whose underlying operation never completes yields the descriptive
Timeout error result after the configured duration rather than hanging;
navigation waits (new_page, navigate, wait_for) instead pass the effective
timeout to the underlying wait — the 30s default, overridden by a positive
per-call value; but the underlying calls of `browser_resize`,
`browser_emulate` and `browser_handle_dialog` (and of the performance
tools, here `browser_perf_insight`) are not timeout-wrapped, so an
operation that never settles leaves those calls hanging. -/
theorem timeout_wrapping_amended (v uid value key from_uid to_uid filePath fn text url : String)
    (dbl verbose : Option Bool) (w h : Int) (timeoutArg : Option Int) :
    browser_click AsyncR.hang (some v) uid dbl =
      textResult
        ("Failed to click element " ++ uid ++ ": " ++ "browser_click timed out after 60000ms")
        true ∧
    browser_hover AsyncR.hang (some v) uid =
      textResult
        ("Failed to hover element " ++ uid ++ ": " ++ "browser_hover timed out after 60000ms")
        true ∧
    browser_fill hangFillEnv (some v) uid value =
      textResult
        ("Failed to fill element " ++ uid ++ ": " ++ "browser_fill timed out after 60000ms")
        true ∧
    browser_fill_form hangFillEnv (some v) [{ uid := uid, value := value }] =
      ([uid],
        textResult
          ("Partially filled out the form.\n\nErrors:\n" ++
            String.intercalate "\n"
              [uid ++ ": " ++ "browser_fill_form timed out after 60000ms"])
          true) ∧
    browser_drag AsyncR.hang (some v) from_uid to_uid =
      textResult ("Failed to drag: " ++ "browser_drag timed out after 60000ms") true ∧
    browser_press_key AsyncR.hang (some v) key =
      textResult ("Failed to press key: " ++ "browser_press_key timed out after 60000ms")
        true ∧
    browser_upload_file (fun _ => some demoCombobox) AsyncR.hang (some v) uid filePath =
      textResult ("Failed to upload file: " ++ "browser_upload_file timed out after 60000ms")
        true ∧
    browser_snapshot (fun _ => AsyncR.hang) (some v) verbose none =
      textResult ("Failed to take snapshot: " ++ "browser_snapshot timed out after 60000ms")
        true ∧
    (browser_screenshot (fun _ => AsyncR.hang) (some v)
        { format := none, quality := none, uid := none, fullPage := none,
          filePath := none }).2 =
      textResult ("Failed to take screenshot: " ++ "browser_screenshot timed out after 60000ms")
        true ∧
    browser_evaluate (fun _ => none) AsyncR.hang (some v) fn none =
      textResult ("Script error: " ++ "browser_evaluate timed out after 60000ms") true ∧
    (browser_wait_for (fun _ _ => AsyncR.ok ()) text timeoutArg).1 =
      [effectiveNavTimeout timeoutArg] ∧
    (browser_navigate demoNavEnv (some v)
        { type := some NavType.url, url := some "https://example.test/",
          ignoreCache := none, timeout := timeoutArg }).1 =
      [effectiveNavTimeout timeoutArg] ∧
    (browser_new_page demoNewPageEnv 0 url timeoutArg).1 =
      [effectiveNavTimeout timeoutArg] ∧
    effectiveNavTimeout none = (NAV_TIMEOUT : Int) ∧
    effectiveNavTimeout (some 5000) = 5000 ∧
    effectiveNavTimeout (some 0) = (NAV_TIMEOUT : Int) ∧
    effectiveNavTimeout (some (-7)) = (NAV_TIMEOUT : Int) ∧
    browser_resize AsyncR.hang (some v) w h = AsyncR.hang ∧
    (browser_emulate (fun _ => AsyncR.hang) (some v)
        { networkConditions := some "WiFi", cpuThrottlingRate := none,
          geolocation := none }).2 = AsyncR.hang ∧
    browser_handle_dialog (some { kind := "confirm", message := "m", defaultValue := none })
        AsyncR.hang DialogAction.accept none = AsyncR.hang ∧
    browser_perf_insight AsyncR.hang (fun _ _ _ => "") (some v) "main" "DocumentLatency" =
      AsyncR.hang :=
  ⟨rfl, rfl, rfl, rfl, rfl, rfl, rfl, rfl, rfl, rfl, rfl, rfl, rfl, rfl, rfl, rfl,
    rfl, rfl, rfl, rfl, rfl⟩

/-- C5 counterexample: two screenshot calls in which both `uid` and
`fullPage` are set yet the call is not rejected — `captureScreenshot` is
invoked (the first result component records the invocation).  With
`uid = ""` (set but falsy) and `fullPage = true` the capture proceeds in
full-page mode; with `uid = "x"` and `fullPage = false` (set but falsy) it
proceeds in element mode. -/
theorem screenshot_truthiness_counterexample :
    browser_screenshot (fun _ => AsyncR.ok { data := "d", mimeType := "image/png" })
        (some "v")
        { format := none, quality := none, uid := some "", fullPage := some true,
          filePath := none } =
      ([{ format := "png", quality := none, uid := some "", fullPage := true }],
        imageResult "Took a screenshot of the full current page." "d" "image/png") ∧
    browser_screenshot (fun _ => AsyncR.ok { data := "d", mimeType := "image/png" })
        (some "v")
        { format := none, quality := none, uid := some "x", fullPage := some false,
          filePath := none } =
      ([{ format := "png", quality := none, uid := some "x", fullPage := false }],
        imageResult "Took a screenshot of node with uid \"x\"." "d" "image/png") :=
  ⟨rfl, rfl⟩

/-- C5 amended: a screenshot call in which `uid` is set to a non-empty
string and `fullPage` is set to `true` is rejected with the
invalid-argument error result before `captureScreenshot` is invoked (no
capture is recorded); whenever the truthiness conjunction fails — `uid`
empty or absent, or `fullPage` false or absent — the capture proceeds, with
exactly one `captureScreenshot` invocation carrying the viewport, full-page
or element parameters. -/
theorem screenshot_exclusivity_amended :
    (∀ (capture : ScreenshotParams → AsyncR ScreenshotData) (v s : String)
        (args : ScreenshotArgs),
      args.uid = some s → s ≠ "" → args.fullPage = some true →
      browser_screenshot capture (some v) args =
        ([], textResult "Providing both \"uid\" and \"fullPage\" is not allowed." true)) ∧
    (∀ (capture : ScreenshotParams → AsyncR ScreenshotData) (v : String)
        (args : ScreenshotArgs),
      (jsTruthyStr args.uid && jsTruthyBool args.fullPage) = false →
      (browser_screenshot capture (some v) args).1 =
        [{ format := args.format.getD "png",
           quality := if (args.format.getD "png") == "png" then none else args.quality,
           uid := args.uid, fullPage := jsTruthyBool args.fullPage }]) := by
  constructor
  · intro capture v s args huid hne hfull
    have hbeq : (s == "") = false := by
      simpa using hne
    unfold browser_screenshot
    simp [huid, hfull, jsTruthyStr, jsTruthyBool, hbeq]
  · intro capture v args hcond
    unfold browser_screenshot
    simp only [Option.isNone_some, Bool.false_eq_true, if_false, hcond]
    rcases hw : withTimeout (capture
        { format := args.format.getD "png",
          quality := if (args.format.getD "png") == "png" then none else args.quality,
          uid := args.uid, fullPage := jsTruthyBool args.fullPage })
        TOOL_TIMEOUT "browser_screenshot" with e | r
    · simp [hw]
    · rcases hp : args.filePath with _ | p <;> simp [hw, hp]

/-- Witness for the amended C5. -/
theorem screenshot_exclusivity_amended_witness :
    browser_screenshot (fun _ => AsyncR.ok { data := "d", mimeType := "image/png" })
        (some "v")
        { format := none, quality := none, uid := some "e", fullPage := some true,
          filePath := none } =
      ([], textResult "Providing both \"uid\" and \"fullPage\" is not allowed." true) ∧
    (browser_screenshot (fun _ => AsyncR.ok { data := "d", mimeType := "image/png" })
        (some "v")
        { format := none, quality := none, uid := some "e", fullPage := none,
          filePath := none }).1 =
      [{ format := "png", quality := none, uid := some "e", fullPage := false }] := by
  constructor
  · exact screenshot_exclusivity_amended.1
      (fun _ => AsyncR.ok { data := "d", mimeType := "image/png" }) "v" "e"
      { format := none, quality := none, uid := some "e", fullPage := some true,
        filePath := none } rfl (by decide) rfl
  · exact screenshot_exclusivity_amended.2
      (fun _ => AsyncR.ok { data := "d", mimeType := "image/png" }) "v"
      { format := none, quality := none, uid := some "e", fullPage := none,
        filePath := none } (by decide)

/-- Indexing into the pagination slice: position `j` of the page is position
`pageIdx*pageSize + j` of the source list, defined exactly on
`[pageIdx*pageSize, min(pageIdx*pageSize + pageSize, length))`. -/
theorem pageSlice_getElem {α : Type} (l : List α) (pi ps j : Nat) :
    (pageSlice l pi ps)[j]? =
      if pi * ps + j < min (pi * ps + ps) l.length then l[pi * ps + j]? else none := by
  simp only [pageSlice]
  rw [List.getElem?_take, List.getElem?_drop]
  by_cases h : pi * ps + j < min (pi * ps + ps) l.length
  · rw [if_pos (by omega), if_pos h]
  · rw [if_neg (by omega), if_neg h]

/-- Records remain past the returned page exactly when the page's upper
bound falls short of the total. -/
theorem pageSlice_hint_iff {α : Type} (l : List α) (pi ps : Nat) :
    (pi * ps + (pageSlice l pi ps).length < l.length) ↔
      min (pi * ps + ps) l.length < l.length := by
  simp only [pageSlice, List.length_take, List.length_drop]
  omega

/-- C2 counterexample: with 25 buffered console messages, `pageSize=10` and
`pageIdx=3` the returned slice is empty and the handler answers with the
fixed no-messages result — no header states the returned range or the total
(the total `of 25` appears nowhere in the response). -/
theorem pagination_empty_page_no_header :
    browser_console (fun _ => demoConsoleMsgs) (fun _ => "t")
        { pageSize := some 10, pageIdx := some 3, types := none,
          includePreservedMessages := none } =
      textResult "No console messages captured." false ∧
    strIncludes "No console messages captured." "of 25" = false :=
  ⟨rfl, rfl⟩

/-- C2 amended: for both list tools, the returned page is exactly the slice
`[pageIdx*pageSize, min(pageIdx*pageSize + pageSize, n))` of the filtered
list; when that slice is non-empty the response is the header stating the
returned range and the total, the per-record lines, and the next-page hint —
present exactly when records remain beyond the returned page; when the slice
is empty the fixed no-records result is returned instead (and indeed no
records remain beyond the page). -/
theorem pagination_slice_header_hint :
    (∀ (gm : Bool → List ConsoleMsg) (ft : Int → String) (args : ConsoleArgs)
        (ps : Nat), args.pageSize = some ps →
      (∀ j : Nat, (pageSlice (consoleSourceList gm args) (args.pageIdx.getD 0) ps)[j]? =
        if (args.pageIdx.getD 0) * ps + j <
            min ((args.pageIdx.getD 0) * ps + ps) (consoleSourceList gm args).length then
          (consoleSourceList gm args)[(args.pageIdx.getD 0) * ps + j]?
        else none) ∧
      (pageSlice (consoleSourceList gm args) (args.pageIdx.getD 0) ps ≠ [] →
        browser_console gm ft args =
          textResult
            (String.intercalate "\n"
              (("Console Messages (" ++ toString ((args.pageIdx.getD 0) * ps + 1) ++ "-" ++
                  toString (min ((args.pageIdx.getD 0) * ps + ps)
                    (consoleSourceList gm args).length) ++
                  " of " ++ toString (consoleSourceList gm args).length ++ "):") :: "" ::
                ((pageSlice (consoleSourceList gm args) (args.pageIdx.getD 0) ps).flatMap
                    (consoleMsgLines ft) ++
                  (if (args.pageIdx.getD 0) * ps +
                      (pageSlice (consoleSourceList gm args) (args.pageIdx.getD 0) ps).length <
                      (consoleSourceList gm args).length then
                    ["Use pageIdx=" ++ toString ((args.pageIdx.getD 0) + 1) ++
                      " to see more messages."]
                  else []))))
            false) ∧
      ((args.pageIdx.getD 0) * ps +
          (pageSlice (consoleSourceList gm args) (args.pageIdx.getD 0) ps).length <
          (consoleSourceList gm args).length ↔
        min ((args.pageIdx.getD 0) * ps + ps) (consoleSourceList gm args).length <
          (consoleSourceList gm args).length) ∧
      (pageSlice (consoleSourceList gm args) (args.pageIdx.getD 0) ps = [] →
        browser_console gm ft args = textResult "No console messages captured." false)) ∧
    (∀ (gr : Bool → List NetworkReq) (args : NetworkArgs) (ps : Nat),
      args.pageSize = some ps →
      (∀ j : Nat, (pageSlice (networkSourceList gr args) (args.pageIdx.getD 0) ps)[j]? =
        if (args.pageIdx.getD 0) * ps + j <
            min ((args.pageIdx.getD 0) * ps + ps) (networkSourceList gr args).length then
          (networkSourceList gr args)[(args.pageIdx.getD 0) * ps + j]?
        else none) ∧
      (pageSlice (networkSourceList gr args) (args.pageIdx.getD 0) ps ≠ [] →
        browser_network_requests gr args =
          textResult
            (String.intercalate "\n"
              (("Network Requests (" ++ toString ((args.pageIdx.getD 0) * ps + 1) ++ "-" ++
                  toString (min ((args.pageIdx.getD 0) * ps + ps)
                    (networkSourceList gr args).length) ++
                  " of " ++ toString (networkSourceList gr args).length ++ "):") :: "" ::
                ((pageSlice (networkSourceList gr args) (args.pageIdx.getD 0) ps).flatMap
                    netReqLines ++
                  (if (args.pageIdx.getD 0) * ps +
                      (pageSlice (networkSourceList gr args) (args.pageIdx.getD 0) ps).length <
                      (networkSourceList gr args).length then
                    ["Use pageIdx=" ++ toString ((args.pageIdx.getD 0) + 1) ++
                      " to see more requests."]
                  else []))))
            false) ∧
      ((args.pageIdx.getD 0) * ps +
          (pageSlice (networkSourceList gr args) (args.pageIdx.getD 0) ps).length <
          (networkSourceList gr args).length ↔
        min ((args.pageIdx.getD 0) * ps + ps) (networkSourceList gr args).length <
          (networkSourceList gr args).length) ∧
      (pageSlice (networkSourceList gr args) (args.pageIdx.getD 0) ps = [] →
        browser_network_requests gr args =
          textResult "No network requests captured." false)) := by
  constructor
  · intro gm ft args ps hps
    refine ⟨fun j => pageSlice_getElem _ _ _ _, ?_, pageSlice_hint_iff _ _ _, ?_⟩
    · intro hne
      have hne' : (pageSlice (consoleSourceList gm args) (args.pageIdx.getD 0) ps).isEmpty
          = false := List.isEmpty_eq_false.mpr hne
      unfold browser_console
      simp only [hps, consoleSourceList] at *
      rw [if_neg (by rw [hne']; exact Bool.false_ne_true)]
    · intro hemp
      have hemp' : (pageSlice (consoleSourceList gm args) (args.pageIdx.getD 0) ps).isEmpty
          = true := List.isEmpty_iff.mpr hemp
      unfold browser_console
      simp only [hps, consoleSourceList] at *
      rw [if_pos hemp']
  · intro gr args ps hps
    refine ⟨fun j => pageSlice_getElem _ _ _ _, ?_, pageSlice_hint_iff _ _ _, ?_⟩
    · intro hne
      have hne' : (pageSlice (networkSourceList gr args) (args.pageIdx.getD 0) ps).isEmpty
          = false := List.isEmpty_eq_false.mpr hne
      unfold browser_network_requests
      simp only [hps, networkSourceList] at *
      rw [if_neg (by rw [hne']; exact Bool.false_ne_true)]
    · intro hemp
      have hemp' : (pageSlice (networkSourceList gr args) (args.pageIdx.getD 0) ps).isEmpty
          = true := List.isEmpty_iff.mpr hemp
      unfold browser_network_requests
      simp only [hps, networkSourceList] at *
      rw [if_pos hemp']

/-- Witness for the amended C2: with 25 buffered console messages,
`pageSize=10` and `pageIdx=2`, items 21-25 are returned under the
`21-25 of 25` header and no next-page hint is emitted; with 3 buffered
network requests and `pageSize=2`, `pageIdx=0`, the first two are returned
and the hint is emitted. -/
theorem pagination_slice_header_hint_witness :
    browser_console (fun _ => demoConsoleMsgs) (fun _ => "t")
        { pageSize := some 10, pageIdx := some 2, types := none,
          includePreservedMessages := none } =
      textResult
        (String.intercalate "\n"
          ("Console Messages (21-25 of 25):" :: "" ::
            ((demoConsoleMsgs.drop 20).flatMap (consoleMsgLines fun _ => "t") ++ [])))
        false ∧
    ¬(2 * 10 +
        (pageSlice
          (consoleSourceList (fun _ => demoConsoleMsgs)
            { pageSize := some 10, pageIdx := some 2, types := none,
              includePreservedMessages := none }) 2 10).length < 25) ∧
    browser_network_requests (fun _ => demoNetReqs)
        { pageSize := some 2, pageIdx := some 0, resourceTypes := none,
          includePreservedRequests := none } =
      textResult
        (String.intercalate "\n"
          ("Network Requests (1-2 of 3):" :: "" ::
            ((demoNetReqs.take 2).flatMap netReqLines ++
              ["Use pageIdx=1 to see more requests."])))
        false := by
  have hc := pagination_slice_header_hint.1 (fun _ => demoConsoleMsgs) (fun _ => "t")
    { pageSize := some 10, pageIdx := some 2, types := none,
      includePreservedMessages := none } 10 rfl
  have hn := pagination_slice_header_hint.2 (fun _ => demoNetReqs)
    { pageSize := some 2, pageIdx := some 0, resourceTypes := none,
      includePreservedRequests := none } 2 rfl
  refine ⟨(hc.2.1 (by decide)).trans (by rfl), ?_, (hn.2.1 (by decide)).trans (by rfl)⟩
  intro hlt
  exact absurd (hc.2.2.1.mp hlt) (by decide)

/-- A defaulted in-bounds index read is a member of the list. -/
theorem getD_mem_of_lt {α : Type} (l : List α) (n : Nat) (d : α)
    (h : n < l.length) : (l.get? n).getD d ∈ l := by
  rw [List.get?_eq_get h]
  exact List.get_mem l n h

/-- Every outcome of the shared back/forward/reload tail is clean. -/
theorem navAwaitThen_clean (env : NavEnv) (timeout : Int) (okMsg : String) :
    settlesClean (navAwaitThen env timeout okMsg).2 = true := by
  unfold navAwaitThen
  rcases hw : env.waitForNavigation timeout with _ | e | u <;> rfl

/-- Every outcome of the url branch of `browser_navigate` is clean. -/
theorem navigateUrlBranch_clean (env : NavEnv) (viewId u : String)
    (timeout : Int) :
    settlesClean (navigateUrlBranch env viewId u timeout).2 = true := by
  unfold navigateUrlBranch
  rcases hn : env.navigate viewId u with _ | e | un
  · rfl
  · rfl
  · rcases hw : env.waitForNavigation timeout with _ | e | uw <;> rfl

/-- Every outcome of the emulation send loop is clean. -/
theorem runEmulate_clean (sendCDP : CDPCommand → AsyncR Unit)
    (acts : List (CDPCommand × String)) (results : List String) :
    settlesClean (runEmulate sendCDP acts results).2 = true := by
  induction acts generalizing results with
  | nil => rfl
  | cons a rest ih =>
    unfold runEmulate
    rcases hs : sendCDP a.1 with _ | e | u
    · rfl
    · rfl
    · exact ih (results ++ [a.2])

/-- Every outcome of the tail of the perf-start try block is clean. -/
theorem perfStartFinish_clean (env : PerfEnv) (s : PerfState) (autoStop : Bool) :
    settlesClean (perfStartFinish env s autoStop).2 = true := by
  unfold perfStartFinish
  split <;> rfl

/-- Every outcome of the perf-start try block is clean. -/
theorem perfStartBody_clean (env : PerfEnv) (s : PerfState) (viewId : String)
    (reload autoStop : Bool) :
    settlesClean (perfStartBody env s viewId reload autoStop).2 = true := by
  unfold perfStartBody
  cases reload with
  | false =>
    simp only [Bool.false_eq_true, if_false]
    rcases hst : startPerformanceTraceM s with e | s1
    · rfl
    · exact perfStartFinish_clean env s1 autoStop
  | true =>
    simp only [if_true]
    rcases h1 : env.navigate viewId "about:blank" with _ | e | u
    · rfl
    · rfl
    · rcases hst : startPerformanceTraceM s with e | s1
      · rfl
      · rcases h2 : env.navigate viewId env.getPageUrl with _ | e | u
        · rfl
        · rfl
        · rcases h3 : env.waitForNavigation NAV_TIMEOUT with _ | e | u
          · rfl
          · rfl
          · exact perfStartFinish_clean env s1 autoStop

/-- C1 counterexample: the page-index schema is plain `z.number()`, so the
fractional index one half is schema-valid; with one page it passes
`browser_select_page`'s bounds check (and, with two pages, `browser_close_page`'s
bounds and last-page checks), `states[pageIdx]` is `undefined`, and the `.id`
read's TypeError — both calls standing outside any try block — escapes the
handler instead of being normalized. -/
theorem select_close_fractional_index_escape :
    stateClean (browser_select_page [{ id := "a", title := "A", url := "ua" }]
      none halfIdx) = false ∧
    stateClean (browser_close_page
      [{ id := "a", title := "A", url := "ua" }, { id := "b", title := "B", url := "ub" }]
      halfIdx) = false :=
  ⟨rfl, rfl⟩

/-- C1 amended: for every one of the twenty-six tool handlers and every
outcome of it — validation failure, lookup failure, protocol failure,
timeout — the dispatcher returns a normalized `{content, isError?}` result
and no raw thrown value escapes to the caller, with one exception:
`browser_select_page` and `browser_close_page`, whose `setActiveViewId` and
`destroy` calls sit outside any try block, let a TypeError escape when a
schema-valid non-integer pageIdx passes the bounds check (`states[pageIdx]`
is `undefined`).  For integer page indices the bounds check guarantees the
selected id is live and the guards guarantee the destroy cannot fail, so the
no-escape guarantee holds there too. -/
theorem dispatcher_normalizes_every_outcome :
    (∀ views : List ViewState, contentNonempty (browser_list_pages views) = true) ∧
    (∀ (views : List ViewState) (active : Option String) (pageIdx : Int),
      stateClean (browser_select_page views active pageIdx) = true) ∧
    (∀ (env : NewPageEnv) (now : Nat) (url : String) (timeoutArg : Option Int),
      settlesClean (browser_new_page env now url timeoutArg).2 = true) ∧
    (∀ (views : List ViewState) (pageIdx : Int),
      stateClean (browser_close_page views pageIdx) = true) ∧
    (∀ (env : NavEnv) (active : Option String) (args : NavigateArgs),
      settlesClean (browser_navigate env active args).2 = true) ∧
    (∀ (waitForText : String → Int → AsyncR Unit) (text : String)
        (timeoutArg : Option Int),
      settlesClean (browser_wait_for waitForText text timeoutArg).2 = true) ∧
    (∀ (setViewportSize : AsyncR Unit) (active : Option String) (w h : Int),
      settlesClean (browser_resize setViewportSize active w h) = true) ∧
    (∀ (pd : Option PendingDialog) (handleOutcome : AsyncR Unit)
        (action : DialogAction) (promptText : Option String),
      settlesClean (browser_handle_dialog pd handleOutcome action promptText) = true) ∧
    (∀ (clickOutcome : AsyncR Unit) (active : Option String) (uid : String)
        (dbl : Option Bool),
      contentNonempty (browser_click clickOutcome active uid dbl) = true) ∧
    (∀ (hoverOutcome : AsyncR Unit) (active : Option String) (uid : String),
      contentNonempty (browser_hover hoverOutcome active uid) = true) ∧
    (∀ (env : FillEnv) (active : Option String) (uid value : String),
      contentNonempty (browser_fill env active uid value) = true) ∧
    (∀ (env : FillEnv) (active : Option String) (elements : List FormElem),
      contentNonempty (browser_fill_form env active elements).2 = true) ∧
    (∀ (dragOutcome : AsyncR Unit) (active : Option String) (from_uid to_uid : String),
      contentNonempty (browser_drag dragOutcome active from_uid to_uid) = true) ∧
    (∀ (pressOutcome : AsyncR Unit) (active : Option String) (key : String),
      contentNonempty (browser_press_key pressOutcome active key) = true) ∧
    (∀ (elementByUid : String → Option ElementNode) (uploadOutcome : AsyncR Unit)
        (active : Option String) (uid filePath : String),
      contentNonempty
        (browser_upload_file elementByUid uploadOutcome active uid filePath) = true) ∧
    (∀ (createSnapshot : Bool → AsyncR SnapshotV) (active : Option String)
        (verbose : Option Bool) (filePath : Option String),
      contentNonempty (browser_snapshot createSnapshot active verbose filePath) = true) ∧
    (∀ (capture : ScreenshotParams → AsyncR ScreenshotData) (active : Option String)
        (args : ScreenshotArgs),
      contentNonempty (browser_screenshot capture active args).2 = true) ∧
    (∀ (elementByUid : String → Option ElementNode) (evalOutcome : AsyncR String)
        (active : Option String) (fn : String) (argUids : Option (List String)),
      contentNonempty (browser_evaluate elementByUid evalOutcome active fn argUids)
        = true) ∧
    (∀ (gr : Bool → List NetworkReq) (args : NetworkArgs),
      contentNonempty (browser_network_requests gr args) = true) ∧
    (∀ (getNetworkRequest : String → Option NetworkReq) (selected : Option NetworkReq)
        (reqid : Option ℚ),
      contentNonempty (browser_network_request getNetworkRequest selected reqid) = true) ∧
    (∀ (gm : Bool → List ConsoleMsg) (ft : Int → String) (args : ConsoleArgs),
      contentNonempty (browser_console gm ft args) = true) ∧
    (∀ (getConsoleMessage : String → Option ConsoleMsg) (fdt : Int → String)
        (sa : List String → String) (msgid : ℚ),
      contentNonempty (browser_console_message getConsoleMessage fdt sa msgid) = true) ∧
    (∀ (sendCDP : CDPCommand → AsyncR Unit) (active : Option String)
        (args : EmulateArgs),
      settlesClean (browser_emulate sendCDP active args).2 = true) ∧
    (∀ (env : PerfEnv) (s : PerfState) (reload autoStop : Bool),
      settlesClean (browser_perf_start env s reload autoStop).2 = true) ∧
    (∀ (env : PerfEnv) (s : PerfState),
      settlesClean (browser_perf_stop env s).2 = true) ∧
    (∀ (getPerformanceMetrics : AsyncR TraceMetrics)
        (renderInsight : String → String → TraceMetrics → String)
        (active : Option String) (insightSetId insightName : String),
      settlesClean
        (browser_perf_insight getPerformanceMetrics renderInsight active
          insightSetId insightName) = true) := by
  refine ⟨?_, ?_, ?_, ?_, ?_, ?_, ?_, ?_, ?_, ?_, ?_, ?_, ?_, ?_, ?_, ?_, ?_, ?_,
    ?_, ?_, ?_, ?_, ?_, ?_, ?_, ?_⟩
  · intro views
    unfold browser_list_pages
    split <;> rfl
  · intro views active pageIdx
    unfold browser_select_page
    split
    · rfl
    · rename_i hguard
      simp only [Bool.or_eq_true, decide_eq_true_eq, not_or] at hguard
      have hlo : (0 : ℤ) ≤ pageIdx := by
        have h1 := hguard.1
        push_neg at h1
        exact_mod_cast h1
      have hlt : pageIdx.toNat < views.length := by
        have h2 := hguard.2
        push_neg at h2
        have h3 : pageIdx < (views.length : ℤ) := by exact_mod_cast h2
        omega
      obtain ⟨target, hget⟩ : ∃ t, views.get? pageIdx.toNat = some t := by
        rw [List.get?_eq_get hlt]
        exact ⟨_, rfl⟩
      have hmem : target ∈ views := List.get?_mem hget
      have hany : (views.any fun v => v.id == target.id) = true := by
        rw [List.any_eq_true]
        exact ⟨target, hmem, by simp⟩
      have hjs : jsIndex views ((pageIdx : ℚ)) = some target := by
        unfold jsIndex
        rw [if_pos ⟨rfl, by simpa using hlo⟩]
        simpa using hget
      rw [hjs]
      dsimp only
      simp only [setActiveViewId, hany, if_true]
      rfl
  · intro env now url timeoutArg
    unfold browser_new_page
    dsimp only
    rcases hc : env.create ("ai-browser-" ++ toString now) url with _ | e | u
    · rfl
    · rfl
    · rcases hw : env.waitForNavigation (effectiveNavTimeout timeoutArg)
        with _ | e | u <;> rfl
  · intro views pageIdx
    unfold browser_close_page
    split
    · rfl
    · split
      · rfl
      · rename_i hguard hone
        simp only [Bool.or_eq_true, decide_eq_true_eq, not_or] at hguard
        have hlo : (0 : ℤ) ≤ pageIdx := by
          have h1 := hguard.1
          push_neg at h1
          exact_mod_cast h1
        have hlt : pageIdx.toNat < views.length := by
          have h2 := hguard.2
          push_neg at h2
          have h3 : pageIdx < (views.length : ℤ) := by exact_mod_cast h2
          omega
        obtain ⟨target, hget⟩ : ∃ t, views.get? pageIdx.toNat = some t := by
          rw [List.get?_eq_get hlt]
          exact ⟨_, rfl⟩
        have hmem : target ∈ views := List.get?_mem hget
        have hany : (views.any fun v => v.id == target.id) = true := by
          rw [List.any_eq_true]
          exact ⟨target, hmem, by simp⟩
        have hone2 : (views.length == 1) = false := by
          rcases h : views.length == 1 with _ | _
          · rfl
          · exact absurd h hone
        have hjs : jsIndex views ((pageIdx : ℚ)) = some target := by
          unfold jsIndex
          rw [if_pos ⟨rfl, by simpa using hlo⟩]
          simpa using hget
        rw [hjs]
        dsimp only
        simp only [destroyView, hany, Bool.not_true, Bool.false_eq_true, if_false, hone2]
        rfl
  · intro env active args
    unfold browser_navigate
    dsimp only
    rcases ht : args.type with _ | t
    · rcases hu : jsTruthyStr args.url with _ | _
      · rfl
      · rcases active with _ | viewId
        · rfl
        · exact navigateUrlBranch_clean env viewId (args.url.getD "")
            (effectiveNavTimeout args.timeout)
    · rcases hu : jsTruthyStr args.url with _ | _ <;>
        rcases active with _ | viewId
      · rfl
      · cases t with
        | url => rfl
        | back =>
          exact navAwaitThen_clean env (effectiveNavTimeout args.timeout)
            "Successfully navigated back."
        | forward =>
          exact navAwaitThen_clean env (effectiveNavTimeout args.timeout)
            "Successfully navigated forward."
        | reload =>
          exact navAwaitThen_clean env (effectiveNavTimeout args.timeout)
            "Successfully reloaded the page."
      · rfl
      · cases t with
        | url =>
          exact navigateUrlBranch_clean env viewId (args.url.getD "")
            (effectiveNavTimeout args.timeout)
        | back =>
          exact navAwaitThen_clean env (effectiveNavTimeout args.timeout)
            "Successfully navigated back."
        | forward =>
          exact navAwaitThen_clean env (effectiveNavTimeout args.timeout)
            "Successfully navigated forward."
        | reload =>
          exact navAwaitThen_clean env (effectiveNavTimeout args.timeout)
            "Successfully reloaded the page."
  · intro wft text timeoutArg
    unfold browser_wait_for
    dsimp only
    rcases hw : wft text (effectiveNavTimeout timeoutArg) with _ | e | u <;> rfl
  · intro svs active w h
    unfold browser_resize
    split
    · rfl
    · rcases svs with _ | e | u <;> rfl
  · intro pd ho action pt
    unfold browser_handle_dialog
    rcases pd with _ | d
    · rfl
    · rcases ho with _ | e | u <;> rfl
  · intro c active uid dbl
    unfold browser_click
    split
    · rfl
    · rcases withTimeout c TOOL_TIMEOUT "browser_click" with e | u <;> rfl
  · intro c active uid
    unfold browser_hover
    split
    · rfl
    · rcases withTimeout c TOOL_TIMEOUT "browser_hover" with e | u <;> rfl
  · intro env active uid value
    unfold browser_fill
    split
    · rfl
    · rcases withTimeout (fillFormElement env uid value).2 TOOL_TIMEOUT "browser_fill"
        with e | u <;> rfl
  · intro env active elements
    unfold browser_fill_form
    split
    · rfl
    · dsimp only
      split <;> rfl
  · intro o active fu tu
    unfold browser_drag
    split
    · rfl
    · rcases withTimeout o TOOL_TIMEOUT "browser_drag" with e | u <;> rfl
  · intro o active key
    unfold browser_press_key
    split
    · rfl
    · rcases withTimeout o TOOL_TIMEOUT "browser_press_key" with e | u <;> rfl
  · intro lu o active uid filePath
    unfold browser_upload_file
    split
    · rfl
    · rcases hl : lu uid with _ | el
      · rfl
      · rcases withTimeout o TOOL_TIMEOUT "browser_upload_file" with e | u <;> rfl
  · intro cs active verbose filePath
    unfold browser_snapshot
    split
    · rfl
    · rcases hw : withTimeout (cs (jsTruthyBool verbose)) TOOL_TIMEOUT "browser_snapshot"
        with e | snap
      · simp only [hw]
        rfl
      · rcases hp : filePath with _ | p <;> simp only [hw, hp] <;> rfl
  · intro capture active args
    unfold browser_screenshot
    split
    · rfl
    · split
      · rfl
      · dsimp only
        rcases hw : withTimeout (capture
            { format := args.format.getD "png",
              quality := if (args.format.getD "png") == "png" then none else args.quality,
              uid := args.uid, fullPage := jsTruthyBool args.fullPage })
            TOOL_TIMEOUT "browser_screenshot" with e | r
        · simp only [hw]
          rfl
        · rcases hp : args.filePath with _ | p <;> simp only [hw, hp] <;> rfl
  · intro lu evo active fn argUids
    unfold browser_evaluate
    split
    · rfl
    · rcases hr : evalResolveArgs lu (argUids.getD []) with e | u
      · rfl
      · rcases withTimeout evo TOOL_TIMEOUT "browser_evaluate" with e | r <;> rfl
  · intro gr args
    unfold browser_network_requests
    split <;> (dsimp only; split <;> rfl)
  · intro g sel rid
    unfold browser_network_request
    rcases rid with _ | r
    · rcases sel with _ | req <;> rfl
    · dsimp only
      rcases hg : g (toString r) with _ | req <;> rfl
  · intro gm ft args
    unfold browser_console
    split <;> (dsimp only; split <;> rfl)
  · intro g fdt sa msgid
    unfold browser_console_message
    rcases hg : g (toString msgid) with _ | m <;> rfl
  · intro send active args
    unfold browser_emulate
    split
    · rfl
    · exact runEmulate_clean send (emulateActions args) []
  · intro env s reload autoStop
    obtain ⟨av, tr⟩ := s
    cases av with
    | none => rfl
    | some viewId =>
      cases tr with
      | true => rfl
      | false =>
        exact perfStartBody_clean env { activeViewId := some viewId, tracing := false }
          viewId reload autoStop
  · intro env s
    obtain ⟨av, tr⟩ := s
    cases av with
    | none => rfl
    | some viewId => cases tr <;> rfl
  · intro gpm ri active i n
    unfold browser_perf_insight
    split
    · rfl
    · rcases gpm with _ | e | m <;> rfl

end Halo
